import Mathlib

/-!
PonchoOS bring-up core: PCI enumeration, ACPI short-circuit, gate table, identity mapping.

A shallow embedding of `src/kernel/src/pci.cpp`, `src/kernel/src/kernelUtil.cpp` and
`src/kernel/src/printf.cpp`.
Every function that only talks to collaborators (page-table manager, frame allocator,
renderer, serial port, AHCI driver) is embedded as the list of collaborator calls it makes,
in program order.  Machine integers are natural numbers with explicit reduction modulo
`2 ^ 64` where the C++ operates on `uint64_t`.
-/

set_option maxRecDepth 100000

namespace PonchoOS

/-! ## Machine arithmetic -/

/-- Addition on `uint64_t`. -/
def add64 (a b : Nat) : Nat := (a + b) % 2 ^ 64

/-- Left shift on `uint64_t`: `a << k`. -/
def shl64 (a k : Nat) : Nat := (a * 2 ^ k) % 2 ^ 64

/-- Subtraction on `uint64_t`. -/
def sub64 (a b : Nat) : Nat := (a % 2 ^ 64 + (2 ^ 64 - b % 2 ^ 64)) % 2 ^ 64

/-! ## Observable events -/

/-- Arguments handed to `kernel_printf`.  The name look-ups (`GetVendorName`,
`GetDeviceName`, `DeviceClasses[...]`, `GetSubclassName`, `GetProgIFName`) live in a
descriptor table outside `src/`; they are recorded symbolically with the values they are
applied to. -/
inductive Arg
  | vendorName (vendorID : Nat)
  | deviceName (vendorID deviceID : Nat)
  | className (cls : Nat)
  | subclassName (cls subclass : Nat)
  | progIFName (cls subclass progIF : Nat)
  | num (n : Nat)
  | str (s : String)
  deriving DecidableEq, Repr

/-- One collaborator call (or one dereference of a configuration-space header). -/
inductive Event
  | cli
  | sti
  | newRenderer (framebuffer font : Nat)
  | outb (port value : Nat)
  | print (s : String)
  | next
  | loadGDT
  | newAllocator
  | readEFIMemoryMap (mMap mMapSize mMapDescSize : Nat)
  | lockPages (addr pages : Nat)
  | requestPage
  | memset (addr value len : Nat)
  | newPageTableManager (pml4 : Nat)
  | mapMemory (virt phys : Nat)
  | loadCR3 (pml4 : Nat)
  | initializeHeap (addr pages : Nat)
  | setIDTGate (handler entryOffset type_attr selector : Nat)
  | lidt
  | remapPIC
  | initPS2Mouse
  | kprintf (fmt : String) (args : List Arg)
  | readHeader (addr : Nat)
  | newAHCIDriver (hdr : Nat)
  deriving DecidableEq, Repr

/-- A `kernel_printf` call. -/
def Event.isKprintf : Event → Bool
  | .kprintf _ _ => true
  | _ => false

/-- Construction of an `AHCI::AHCIDriver`. -/
def Event.isDriver : Event → Bool
  | .newAHCIDriver _ => true
  | _ => false

/-- A diagnostic line or a driver construction: what enumeration reports about a function. -/
def Event.isReport (e : Event) : Bool := e.isKprintf || e.isDriver

/-- A page-table mapping request. -/
def Event.isMap : Event → Bool
  | .mapMemory _ _ => true
  | _ => false

/-! ## PCI configuration space (`pci.cpp`) -/

/-- Modelled from the spec: the `PCIDeviceHeader` type is declared in `pci.h`, which is not
part of the sources; the fields are the ones the spec's data model names and `pci.cpp`
reads (vendor id, device id, programming interface, subclass, class). -/
structure PCIDeviceHeader where
  VendorID : Nat
  DeviceID : Nat
  ProgIF : Nat
  Subclass : Nat
  Class : Nat
  deriving DecidableEq, Repr

/-- Memory-mapped configuration space: the header found at each address. -/
abbrev ConfigSpace := Nat → PCIDeviceHeader

/-- The innermost `switch` of `EnumerateFunction` (on `ProgIF`). -/
def progIFSwitch (functionAddress : Nat) (hdr : PCIDeviceHeader) : List Event :=
  Event.readHeader functionAddress ::
    (if hdr.ProgIF = 0x01 then
      [Event.kprintf "      [AHCI] Initializing AHCI driver...\n" [],
       Event.newAHCIDriver functionAddress]
    else [])

/-- The middle `switch` of `EnumerateFunction` (on `Subclass`). -/
def subclassSwitch (functionAddress : Nat) (hdr : PCIDeviceHeader) : List Event :=
  Event.readHeader functionAddress ::
    (if hdr.Subclass = 0x06 then progIFSwitch functionAddress hdr else [])

/-- The outer `switch` of `EnumerateFunction` (on `Class`). -/
def classSwitch (functionAddress : Nat) (hdr : PCIDeviceHeader) : List Event :=
  Event.readHeader functionAddress ::
    (if hdr.Class = 0x01 then subclassSwitch functionAddress hdr else [])

/-- The five diagnostic lines `EnumerateFunction` prints for a function it found; each
statement dereferences the header before the call. -/
def describeFunction (functionAddress : Nat) (hdr : PCIDeviceHeader) : List Event :=
  [Event.readHeader functionAddress,
   Event.kprintf "    [PCI Device] %s / %s\n"
     [Arg.vendorName hdr.VendorID, Arg.deviceName hdr.VendorID hdr.DeviceID],
   Event.readHeader functionAddress,
   Event.kprintf "      - Class: %s\n" [Arg.className hdr.Class],
   Event.readHeader functionAddress,
   Event.kprintf "      - Subclass: %s\n" [Arg.subclassName hdr.Class hdr.Subclass],
   Event.readHeader functionAddress,
   Event.kprintf "      - ProgIF: %s\n" [Arg.progIFName hdr.Class hdr.Subclass hdr.ProgIF],
   Event.readHeader functionAddress,
   Event.kprintf "      - Vendor ID: 0x%x, Device ID: 0x%x\n"
     [Arg.num hdr.VendorID, Arg.num hdr.DeviceID]]

/-- `PCI::EnumerateFunction(deviceAddress, function)`. -/
def EnumerateFunction (cs : ConfigSpace) (deviceAddress function : Nat) : List Event :=
  let offset := shl64 function 12
  let functionAddress := add64 deviceAddress offset
  let pciDeviceHeader := cs functionAddress
  Event.mapMemory functionAddress functionAddress ::
  Event.readHeader functionAddress ::
    (if pciDeviceHeader.DeviceID = 0 then []
     else
      Event.readHeader functionAddress ::
        (if pciDeviceHeader.DeviceID = 0xFFFF then []
         else
          describeFunction functionAddress pciDeviceHeader ++
            classSwitch functionAddress pciDeviceHeader))

/-- `PCI::EnumerateDevice(busAddress, device)`. -/
def EnumerateDevice (cs : ConfigSpace) (busAddress device : Nat) : List Event :=
  let offset := shl64 device 15
  let deviceAddress := add64 busAddress offset
  let pciDeviceHeader := cs deviceAddress
  Event.mapMemory deviceAddress deviceAddress ::
  Event.readHeader deviceAddress ::
    (if pciDeviceHeader.DeviceID = 0 then []
     else
      Event.readHeader deviceAddress ::
        (if pciDeviceHeader.DeviceID = 0xFFFF then []
         else (List.range 8).flatMap (fun function => EnumerateFunction cs deviceAddress function)))

/-- `PCI::EnumerateBus(baseAddress, bus)`. -/
def EnumerateBus (cs : ConfigSpace) (baseAddress bus : Nat) : List Event :=
  let offset := shl64 bus 20
  let busAddress := add64 baseAddress offset
  let pciDeviceHeader := cs busAddress
  Event.mapMemory busAddress busAddress ::
  Event.readHeader busAddress ::
    (if pciDeviceHeader.DeviceID = 0 then []
     else
      Event.readHeader busAddress ::
        (if pciDeviceHeader.DeviceID = 0xFFFF then []
         else (List.range 32).flatMap (fun device => EnumerateDevice cs busAddress device)))

/-- Modelled from the spec: `ACPI::DeviceConfig` is declared in `acpi.h`, which is not part
of the sources; one device-group record of the PCI-Express base table, with the fields
`pci.cpp` reads. -/
structure DeviceConfig where
  BaseAddress : Nat
  StartBus : Nat
  EndBus : Nat
  deriving DecidableEq, Repr

/-- Modelled from the spec: `ACPI::MCFGHeader` is declared in `acpi.h`, which is not part
of the sources; the table header carries the total byte `Length`, and `records t` is what
memory holds at `(uint64_t)mcfg + sizeof(MCFGHeader) + sizeof(DeviceConfig) * t`. -/
structure MCFGHeader where
  Length : Nat
  records : Nat → DeviceConfig

/-- Modelled from the spec: `sizeof(ACPI::MCFGHeader)`, a 36-byte table header followed by
8 reserved bytes. -/
def sizeofMCFGHeader : Nat := 44

/-- Modelled from the spec: `sizeof(ACPI::DeviceConfig)`. -/
def sizeofDeviceConfig : Nat := 16

/-- The `int entries` of `EnumeratePCI`: the subtraction and division are done in
`uint64_t`, the result is truncated to a 32-bit signed `int`. -/
def mcfgEntries (mcfg : MCFGHeader) : Int :=
  let q : Nat := sub64 (mcfg.Length % 2 ^ 32) sizeofMCFGHeader / sizeofDeviceConfig
  let low : Nat := q % 2 ^ 32
  if low < 2 ^ 31 then (low : Int) else (low : Int) - 2 ^ 32

/-- The inner loop of `EnumeratePCI`:
`for (uint64_t bus = StartBus; bus < EndBus; bus++) EnumerateBus(BaseAddress, bus)`. -/
def busLoop (cs : ConfigSpace) (cfg : DeviceConfig) (bus : Nat) : List Event :=
  if bus < cfg.EndBus then
    EnumerateBus cs cfg.BaseAddress bus ++ busLoop cs cfg (bus + 1)
  else []
termination_by cfg.EndBus - bus

/-- The outer loop of `EnumeratePCI`: `for (int t = 0; t < entries; t++) ...`. -/
def recordLoop (cs : ConfigSpace) (mcfg : MCFGHeader) (entries : Int) (t : Nat) : List Event :=
  if (t : Int) < entries then
    busLoop cs (mcfg.records t) (mcfg.records t).StartBus ++ recordLoop cs mcfg entries (t + 1)
  else []
termination_by (entries - t).toNat

/-- `PCI::EnumeratePCI(mcfg)`. -/
def EnumeratePCI (cs : ConfigSpace) (mcfg : MCFGHeader) : List Event :=
  recordLoop cs mcfg (mcfgEntries mcfg) 0

/-! ## Boot snapshot and platform (`kernelUtil.cpp`) -/

/-- Modelled from the spec: `Framebuffer` is declared outside `src/`; the framebuffer
descriptor of the boot snapshot, with the two fields `kernelUtil.cpp` reads. -/
structure Framebuffer where
  BaseAddress : Nat
  BufferSize : Nat
  deriving DecidableEq, Repr

/-- Modelled from the spec: `BootInfo` is declared in `kernelUtil.h`, which is not part of
the sources; the boot snapshot: framebuffer descriptor, font handle, firmware memory map
(pointer, byte size, per-entry stride) and the ACPI root pointer (`0` is `NULL`). -/
structure BootInfo where
  framebuffer : Framebuffer
  psf1_Font : Nat
  mMap : Nat
  mMapSize : Nat
  mMapDescSize : Nat
  rsdp : Nat
  deriving DecidableEq, Repr

/-- Modelled from the spec: `ACPI::RSDP2` is declared in `acpi.h`, which is not part of the
sources; the root description, with the fields `PrepareACPI` reads. -/
structure RSDP2 where
  Signature : String
  OEMId : String
  Revision : Nat
  XSDTAddress : Nat
  deriving DecidableEq, Repr

/-- Modelled from the spec: `ACPI::SDTHeader` is declared in `acpi.h`, which is not part of
the sources; the header of a system description table. -/
structure SDTHeader where
  Signature : String
  Length : Nat
  deriving DecidableEq, Repr

/-- Modelled from the spec: `IDTDescEntry` is declared in `interrupts/IDT.h`, which is not
part of the sources; a gate descriptor holds a handler entry point, a code-segment
selector and a type/attribute byte; `rest` stands for the remaining bits of the 16-byte
descriptor, which `SetIDTGate` does not write. -/
structure IDTDescEntry where
  offset : Nat
  selector : Nat
  type_attr : Nat
  rest : Nat
  deriving DecidableEq, Repr

/-- Modelled from the spec: `IDT_TA_InterruptGate` is defined in `interrupts/IDT.h`, which is
not part of the sources; the interrupt-gate attribute byte `0b10001110` (present, ring 0,
64-bit interrupt gate). -/
def IDT_TA_InterruptGate : Nat := 0x8E

/-- Modelled from the spec: `sizeof(IDTDescEntry)`; the byte limit `0x0FFF` covers 256
descriptors of 16 bytes. -/
def sizeofIDTDescEntry : Nat := 16

/-- The gate descriptor with every bit clear. -/
def IDTDescEntry.zero : IDTDescEntry := ⟨0, 0, 0, 0⟩

/-- The present bit (bit 7) of the type/attribute byte. -/
def IDTDescEntry.present (e : IDTDescEntry) : Bool := decide (e.type_attr / 128 % 2 = 1)

/-- The table register `IDTR`. -/
structure IDTR where
  Limit : Nat
  Offset : Nat
  deriving DecidableEq, Repr

/-- Modelled from the spec: `PIC1_DATA`, the data port of the primary interrupt controller,
is defined in a header outside `src/`. -/
def PIC1_DATA : Nat := 0x21

/-- Modelled from the spec: `PIC2_DATA`, the data port of the secondary interrupt
controller, is defined in a header outside `src/`. -/
def PIC2_DATA : Nat := 0xA1

/-- Everything `kernelUtil.cpp` obtains from collaborators and from memory it does not own:
link-time symbols, the results of `GetMemorySize` and `RequestPage`, the handler entry
points, the contents of physical memory seen as gate descriptors, the ACPI tables found
at an address, the result of `ACPI::FindTable` (`0` is `NULL`) and the PCI configuration
space. -/
structure Platform where
  kernelStart : Nat
  kernelEnd : Nat
  getMemorySize : Nat → Nat → Nat → Nat
  pml4 : Nat
  idtPage : Nat
  PageFault_Handler : Nat
  DoubleFault_Handler : Nat
  GPFault_Handler : Nat
  KeyboardInt_Handler : Nat
  MouseInt_Handler : Nat
  PITInt_Handler : Nat
  memory : Nat → IDTDescEntry
  rsdpAt : Nat → RSDP2
  sdtAt : Nat → SDTHeader
  findTable : Nat → String → Nat
  mcfgAt : Nat → MCFGHeader
  config : ConfigSpace

/-! ## Address-space bring-up -/

/-- Both loops of `PrepareMemory`:
`for (uint64_t t = start; t < bound; t += 0x1000) MapMemory((void*)t, (void*)t)`.
The counter is a `uint64_t`; `none` when the fuel runs out before the loop exits. -/
def mapLoop : Nat → Nat → Nat → Option (List Event)
  | 0, _, _ => none
  | fuel + 1, t, bound =>
    if t < bound then
      (mapLoop fuel (add64 t 0x1000) bound).map (fun rest => Event.mapMemory t t :: rest)
    else some []

/-- The value of `GetMemorySize(bootInfo->mMap, mMapEntries, bootInfo->mMapDescSize)`, a
`uint64_t`, with `mMapEntries = mMapSize / mMapDescSize`. -/
def memorySizeOf (p : Platform) (bootInfo : BootInfo) : Nat :=
  p.getMemorySize bootInfo.mMap
    ((bootInfo.mMapSize % 2 ^ 64) / (bootInfo.mMapDescSize % 2 ^ 64)) bootInfo.mMapDescSize % 2 ^ 64

/-- `PrepareMemory(bootInfo)`: `none` when the division by `mMapDescSize` traps or a loop
does not exit within the fuel. -/
def PrepareMemory (fuel : Nat) (p : Platform) (bootInfo : BootInfo) : Option (List Event) :=
  if bootInfo.mMapDescSize % 2 ^ 64 = 0 then none
  else
    let kernelSize := sub64 p.kernelEnd p.kernelStart
    let kernelPages := add64 (kernelSize / 4096) 1
    let PML4 := p.pml4
    let memorySize := memorySizeOf p bootInfo
    let fbBase := bootInfo.framebuffer.BaseAddress % 2 ^ 64
    let fbSize := add64 bootInfo.framebuffer.BufferSize 0x1000
    match mapLoop fuel 0 memorySize, mapLoop fuel fbBase (add64 fbBase fbSize) with
    | some memoryMaps, some framebufferMaps =>
      some ([Event.newAllocator,
             Event.readEFIMemoryMap bootInfo.mMap bootInfo.mMapSize bootInfo.mMapDescSize,
             Event.lockPages p.kernelStart kernelPages,
             Event.requestPage,
             Event.memset PML4 0 0x1000,
             Event.newPageTableManager PML4]
            ++ memoryMaps
            ++ [Event.lockPages fbBase (add64 (fbSize / 0x1000) 1)]
            ++ framebufferMaps
            ++ [Event.loadCR3 PML4])
    | _, _ => none

/-! ## Interrupt gate table -/

/-- The table register, the memory holding gate descriptors, and the calls made so far. -/
structure InterruptState where
  idtr : IDTR
  mem : Nat → IDTDescEntry
  trace : List Event

/-- `SetIDTGate(handler, entryOffset, type_attr, selector)`: the three narrow parameters
are `uint8_t`; the descriptor at `idtr.Offset + entryOffset * sizeof(IDTDescEntry)` gets
its offset, type/attribute byte and selector written. -/
def SetIDTGate (s : InterruptState) (handler entryOffset type_attr selector : Nat) :
    InterruptState :=
  let interrupt := add64 s.idtr.Offset ((entryOffset % 256) * sizeofIDTDescEntry)
  { s with
    mem := Function.update s.mem interrupt
      { s.mem interrupt with
        offset := handler % 2 ^ 64, type_attr := type_attr % 256, selector := selector % 256 }
    trace := s.trace ++ [Event.setIDTGate handler entryOffset type_attr selector] }

/-- `PrepareInterrupts()`, started on memory contents `mem`. -/
def PrepareInterrupts (p : Platform) (mem : Nat → IDTDescEntry) : InterruptState :=
  let s0 : InterruptState :=
    { idtr := { Limit := 0x0FFF, Offset := p.idtPage }, mem := mem, trace := [Event.requestPage] }
  let s1 := SetIDTGate s0 p.PageFault_Handler 0xE IDT_TA_InterruptGate 0x08
  let s2 := SetIDTGate s1 p.DoubleFault_Handler 0x8 IDT_TA_InterruptGate 0x08
  let s3 := SetIDTGate s2 p.GPFault_Handler 0xD IDT_TA_InterruptGate 0x08
  let s4 := SetIDTGate s3 p.KeyboardInt_Handler 0x21 IDT_TA_InterruptGate 0x08
  let s5 := SetIDTGate s4 p.MouseInt_Handler 0x2C IDT_TA_InterruptGate 0x08
  let s6 := SetIDTGate s5 p.PITInt_Handler 0x20 IDT_TA_InterruptGate 0x08
  { s6 with trace := s6.trace ++ [Event.lidt, Event.remapPIC] }

/-- The gate descriptor of vector `v` in the table `idtr` points at. -/
def gateAt (s : InterruptState) (v : Nat) : IDTDescEntry :=
  s.mem (add64 s.idtr.Offset (v * sizeofIDTDescEntry))

/-! ## ACPI discovery -/

/-- The lines `PrepareACPI` prints once the root pointer is known to be non-null. -/
def rsdpLines (rsdpAddress : Nat) (rsdp : RSDP2) : List Event :=
  [Event.kprintf "  [ACPI] RSDP found at 0x%p\n" [Arg.num rsdpAddress],
   Event.kprintf "    - Signature: %.8s\n" [Arg.str rsdp.Signature],
   Event.kprintf "    - OEM: %.6s\n" [Arg.str rsdp.OEMId],
   Event.kprintf "    - Revision: %u\n" [Arg.num rsdp.Revision]]

/-- The lines `PrepareACPI` prints once the extended system table is known to be non-null. -/
def xsdtLines (xsdtAddress : Nat) (xsdt : SDTHeader) : List Event :=
  [Event.kprintf "  [ACPI] XSDT found at 0x%p\n" [Arg.num xsdtAddress],
   Event.kprintf "    - Signature: %.4s\n" [Arg.str xsdt.Signature],
   Event.kprintf "    - Length: %u bytes\n" [Arg.num xsdt.Length]]

/-- `PrepareACPI(bootInfo)`; `none` is a `NULL` `bootInfo`. -/
def PrepareACPI (p : Platform) (bootInfo : Option BootInfo) : List Event :=
  match bootInfo with
  | none =>
    [Event.kprintf "  [ACPI] WARNING: RSDP is NULL, skipping ACPI initialization\n" []]
  | some b =>
    if b.rsdp = 0 then
      [Event.kprintf "  [ACPI] WARNING: RSDP is NULL, skipping ACPI initialization\n" []]
    else
      let rsdp := p.rsdpAt b.rsdp
      let xsdt := rsdp.XSDTAddress
      rsdpLines b.rsdp rsdp ++
        (if xsdt = 0 then
          [Event.kprintf "  [ACPI] WARNING: XSDT is NULL at 0x%p, skipping PCI enumeration\n"
            [Arg.num rsdp.XSDTAddress]]
         else
          let mcfg := p.findTable xsdt "MCFG"
          xsdtLines xsdt (p.sdtAt xsdt) ++
            (if mcfg ≠ 0 then
              [Event.kprintf "  [ACPI] MCFG table found at 0x%p\n" [Arg.num mcfg],
               Event.kprintf "    - Starting PCI enumeration...\n" []]
              ++ EnumeratePCI p.config (p.mcfgAt mcfg)
              ++ [Event.kprintf "    - PCI enumeration complete\n" []]
             else
              [Event.kprintf "  [ACPI] WARNING: MCFG table not found\n" []]))

/-- A `kernel_printf` line whose text carries the word `WARNING`. -/
def Event.isWarning : Event → Bool
  | .kprintf fmt _ => decide ("WARNING".toList <:+: fmt.toList)
  | _ => false

/-! ## The bring-up sequencer -/

/-- The `InitSerial` lambda of `InitializeKernel` (`COM1 = 0x3F8`). -/
def InitSerial : List Event :=
  let COM1 := 0x3F8
  [Event.outb (COM1 + 1) 0x00,
   Event.outb (COM1 + 3) 0x80,
   Event.outb (COM1 + 0) 0x01,
   Event.outb (COM1 + 1) 0x00,
   Event.outb (COM1 + 3) 0x03,
   Event.outb (COM1 + 2) 0xC7,
   Event.outb (COM1 + 4) 0x0B]

/-- What `InitializeKernel` does after `PrepareACPI` returns. -/
def finishBringUp : List Event :=
  [Event.print "[*] Configuring PIC...", Event.next,
   Event.outb PIC1_DATA 0b11111000,
   Event.outb PIC2_DATA 0b11101111,
   Event.print "[*] Enabling interrupts...", Event.next,
   Event.sti,
   Event.print "[*] Kernel initialization complete!", Event.next]

/-- `InitializeKernel(bootInfo)`: the calls it makes, when it returns. -/
def InitializeKernel (fuel : Nat) (p : Platform) (bootInfo : BootInfo) : Option (List Event) :=
  match PrepareMemory fuel p bootInfo with
  | none => none
  | some prepareMemory =>
    some ([Event.cli,
           Event.newRenderer bootInfo.framebuffer.BaseAddress bootInfo.psf1_Font]
          ++ InitSerial
          ++ [Event.print "Kernel Initialization Starting...", Event.next,
              Event.print "[*] Loading GDT...", Event.next,
              Event.loadGDT,
              Event.print "[*] Setting up paging...", Event.next]
          ++ prepareMemory
          ++ [Event.memset bootInfo.framebuffer.BaseAddress 0 bootInfo.framebuffer.BufferSize,
              Event.print "[*] Initializing heap...", Event.next,
              Event.initializeHeap 0x0000100000000000 0x10,
              Event.print "[*] Setting up interrupts...", Event.next]
          ++ (PrepareInterrupts p p.memory).trace
          ++ [Event.print "[*] Initializing PS/2 mouse...", Event.next,
              Event.initPS2Mouse,
              Event.print "[*] Enumerating ACPI/PCI...", Event.next]
          ++ PrepareACPI p (some bootInfo)
          ++ finishBringUp)

/-- The bring-up steps of the sequencer: every collaborator call except diagnostics
(construction of the renderer, renderer text, `kernel_printf`), the frame allocator's
bookkeeping (construction, memory-map read, frame reservation and request, page-table
manager construction) and the per-page, per-gate and per-function work (mapping requests,
gate writes, header reads, driver construction). -/
def Event.isStep : Event → Bool
  | .cli => true
  | .sti => true
  | .outb _ _ => true
  | .loadGDT => true
  | .memset _ _ _ => true
  | .loadCR3 _ => true
  | .initializeHeap _ _ => true
  | .lidt => true
  | .remapPIC => true
  | .initPS2Mouse => true
  | _ => false

/-! ## Enumeration order, in the words of the specification -/

/-- The presence test the three `Enumerate...` functions apply to a header: the device id
is neither `0` nor `0xFFFF`. -/
def isPresent (hdr : PCIDeviceHeader) : Bool :=
  !(hdr.DeviceID == 0) && !(hdr.DeviceID == 0xFFFF)

/-- Configuration-space address of a bus: `baseAddress + (bus << 20)`. -/
def busAddressOf (baseAddress bus : Nat) : Nat := add64 baseAddress (shl64 bus 20)

/-- Configuration-space address of a device slot: `busAddress + (device << 15)`. -/
def deviceAddressOf (baseAddress bus device : Nat) : Nat :=
  add64 (busAddressOf baseAddress bus) (shl64 device 15)

/-- Configuration-space address of a function: `deviceAddress + (function << 12)`. -/
def functionAddressOf (baseAddress bus device function : Nat) : Nat :=
  add64 (deviceAddressOf baseAddress bus device) (shl64 function 12)

/-- Lexicographic order on (bus, device, function). -/
def lexLt (x y : Nat × Nat × Nat) : Prop :=
  x.1 < y.1 ∨ (x.1 = y.1 ∧ (x.2.1 < y.2.1 ∨ (x.2.1 = y.2.1 ∧ x.2.2 < y.2.2)))

/-- Byte offset of a function inside its device group:
`(bus << 20) + (device << 15) + (function << 12)` without wrap-around. -/
def functionOffset (x : Nat × Nat × Nat) : Nat := x.1 * 2 ^ 20 + x.2.1 * 2 ^ 15 + x.2.2 * 2 ^ 12

/-- The functions of one device group that enumeration finds, written as the specification
words it: every (bus, device, function) with bus in `[StartBus, EndBus)`, device in
`0..31`, function in `0..7`, bus-ascending, then device-ascending, then
function-ascending, kept when the bus's, the device's and the function's own header are
all present. -/
def foundFunctions (cs : ConfigSpace) (cfg : DeviceConfig) : List (Nat × Nat × Nat) :=
  (List.range' cfg.StartBus (cfg.EndBus - cfg.StartBus)).flatMap fun bus =>
    (List.range 32).flatMap fun device =>
      (List.range 8).flatMap fun function =>
        if isPresent (cs (busAddressOf cfg.BaseAddress bus)) &&
            isPresent (cs (deviceAddressOf cfg.BaseAddress bus device)) &&
            isPresent (cs (functionAddressOf cfg.BaseAddress bus device function))
        then [(bus, device, function)] else []

/-- The AHCI class triple: mass storage / Serial ATA / AHCI 1.0. -/
def isAHCI (hdr : PCIDeviceHeader) : Bool :=
  hdr.Class == 0x01 && hdr.Subclass == 0x06 && hdr.ProgIF == 0x01

/-- Every header read in the trace has the identity mapping of its address earlier in the
same trace. -/
def MappedBeforeRead (tr : List Event) : Prop :=
  ∀ pre A post, tr = pre ++ Event.readHeader A :: post → Event.mapMemory A A ∈ pre

/-! ## Concrete inputs used by the closed theorems -/

/-- A header with vendor id `0xFFFF`, a valid device id and the AHCI class triple. -/
def vendorFFFFHeader : PCIDeviceHeader :=
  { VendorID := 0xFFFF, DeviceID := 0x2922, ProgIF := 0x01, Subclass := 0x06, Class := 0x01 }

/-- An AHCI controller (Intel ICH9). -/
def ahciHeader : PCIDeviceHeader :=
  { VendorID := 0x8086, DeviceID := 0x2922, ProgIF := 0x01, Subclass := 0x06, Class := 0x01 }

/-- A Serial-ATA controller whose programming interface is not AHCI 1.0. -/
def sataHeader : PCIDeviceHeader :=
  { VendorID := 0x8086, DeviceID := 0x2922, ProgIF := 0x00, Subclass := 0x06, Class := 0x01 }

/-- What an empty slot reads: all ones. -/
def emptyHeader : PCIDeviceHeader :=
  { VendorID := 0xFFFF, DeviceID := 0xFFFF, ProgIF := 0xFF, Subclass := 0xFF, Class := 0xFF }

/-- A configuration space with nothing plugged in. -/
def emptySpace : ConfigSpace := fun _ => emptyHeader

/-- A configuration space with one AHCI controller, at bus 0, device 0, function 0 of the
group based at `0xE0000000`. -/
def oneAhciSpace : ConfigSpace := fun a => if a = 0xE0000000 then ahciHeader else emptyHeader

/-- A configuration space with AHCI controllers at functions (0,0,0), (0,0,2) and (0,3,0)
of the group based at `0xE0000000`. -/
def threeAhciSpace : ConfigSpace := fun a =>
  if a = 0xE0000000 ∨ a = 0xE0002000 ∨ a = 0xE0018000 then ahciHeader else emptyHeader

/-- A device group covering bus 0 only. -/
def oneBusConfig : DeviceConfig := { BaseAddress := 0xE0000000, StartBus := 0, EndBus := 1 }

/-- A device group covering buses 2, 3 and 4. -/
def threeBusConfig : DeviceConfig := { BaseAddress := 0xE0000000, StartBus := 2, EndBus := 5 }

/-- A PCI-Express base table with one device-group record. -/
def oneRecordTable : MCFGHeader := { Length := 60, records := fun _ => oneBusConfig }

/-- A gate descriptor left over from earlier use of a page: every bit set. -/
def staleEntry : IDTDescEntry :=
  { offset := 0xFFFFFFFFFFFFFFFF, selector := 0xFFFF, type_attr := 0xFF, rest := 0xFFFFFFFFFF }

/-- A small machine: 16 KiB of memory reported by the firmware map, frames at 2 MiB handed
out by the allocator, no PCI device, and a root description whose extended table is at
`0x7000` and holds no `MCFG` table. -/
def samplePlatform : Platform :=
  { kernelStart := 0x100000
    kernelEnd := 0x180000
    getMemorySize := fun _ _ _ => 0x4000
    pml4 := 0x200000
    idtPage := 0x201000
    PageFault_Handler := 0x101000
    DoubleFault_Handler := 0x101100
    GPFault_Handler := 0x101200
    KeyboardInt_Handler := 0x101300
    MouseInt_Handler := 0x101400
    PITInt_Handler := 0x101500
    memory := fun _ => staleEntry
    rsdpAt := fun _ => { Signature := "RSD PTR ", OEMId := "BOCHS ", Revision := 2,
                         XSDTAddress := 0x7000 }
    sdtAt := fun _ => { Signature := "XSDT", Length := 36 }
    findTable := fun _ _ => 0
    mcfgAt := fun _ => oneRecordTable
    config := emptySpace }

/-- The same machine with an extended table that holds an `MCFG` table at `0x7100` and one
AHCI controller on bus 0. -/
def ahciPlatform : Platform :=
  { samplePlatform with findTable := fun _ _ => 0x7100, config := oneAhciSpace }

/-- A boot snapshot whose 4 KiB framebuffer at `0x2000` lies inside the 16 KiB the firmware
memory map covers; no ACPI root pointer. -/
def overlapBoot : BootInfo :=
  { framebuffer := { BaseAddress := 0x2000, BufferSize := 0x1000 }
    psf1_Font := 0x300000, mMap := 0x9000, mMapSize := 480, mMapDescSize := 48, rsdp := 0 }

/-- A boot snapshot whose 8 KiB framebuffer at `0x80000000` lies outside the memory map,
with an ACPI root pointer. -/
def sampleBoot : BootInfo :=
  { framebuffer := { BaseAddress := 0x80000000, BufferSize := 0x2000 }
    psf1_Font := 0x300000, mMap := 0x9000, mMapSize := 480, mMapDescSize := 48, rsdp := 0x6000 }

/-! ## Formatted output (`printf.cpp`) -/

/-- The bytes of a C string literal, without the terminator. -/
def cstr (s : String) : List Nat := s.toList.map Char.toNat

/-- A call `kernel_vprintf` makes on `GlobalRenderer`. -/
inductive RenderCall
  | putChar (c : Nat)
  | print (s : List Nat)
  | next
  deriving DecidableEq, Repr

/-- The number of characters a renderer call emits; `Next()`, a newline, counts as one. -/
def RenderCall.chars : RenderCall → Nat
  | .putChar _ => 1
  | .print s => s.length
  | .next => 1

/-- The number of characters a sequence of renderer calls emits. -/
def emittedChars (calls : List RenderCall) : Nat := (calls.map RenderCall.chars).sum

/-- The line-status register of COM1 as the program sees it: the value the `k`-th
`inb(COM1 + 5)` returns. -/
abbrev LineStatus := Nat → Nat

/-- A transmitter that is always ready: bit 5 of the line status is set at every read. -/
def alwaysReady : LineStatus := fun _ => 0x20

/-- What `kernel_vprintf` has done so far: the calls on the renderer, the bytes written to
the serial data register, the number of line-status reads, and the local `count`. -/
structure PrintState where
  renderer : List RenderCall
  serial : List Nat
  reads : Nat
  count : Int
  deriving DecidableEq, Repr

/-- The poll loop of `serial_putc`: `while ((inb(COM1 + 5) & 0x20) == 0);`.  Returns the
number of line-status reads made once the loop exits, `none` when the fuel runs out. -/
def pollReady (lsr : LineStatus) : Nat → Nat → Option Nat
  | 0, _ => none
  | fuel + 1, reads =>
    if lsr reads % 256 / 32 % 2 = 0 then pollReady lsr fuel (reads + 1) else some (reads + 1)

/-- The `serial_putc` lambda: poll, then `outb(COM1, (uint8_t)c)`. -/
def serial_putc (lsr : LineStatus) (fuel : Nat) (c : Nat) (s : PrintState) : Option PrintState :=
  match pollReady lsr fuel s.reads with
  | none => none
  | some reads => some { s with reads := reads, serial := s.serial ++ [c % 256] }

/-- The loop `for (int k = 0; buffer[k] != '\0'; k++) serial_putc(buffer[k]);`. -/
def serialString (lsr : LineStatus) (fuel : Nat) : List Nat → PrintState → Option PrintState
  | [], s => some s
  | c :: cs, s =>
    match serial_putc lsr fuel c s with
    | none => none
    | some s1 => serialString lsr fuel cs s1

/-- The digit table `"0123456789abcdefghijklmnopqrstuvwxyz"`. -/
def lowerDigits : List Nat := cstr "0123456789abcdefghijklmnopqrstuvwxyz"

/-- The digit table `"0123456789ABCDEFGHIJKLMNOPQRSTUVWXYZ"`. -/
def upperDigits : List Nat := cstr "0123456789ABCDEFGHIJKLMNOPQRSTUVWXYZ"

/-- The loop `while (num > 0) { temp[i++] = digits[num % base]; num /= base; }`: the
contents of `temp`, least significant digit first; the fuel is the capacity of `temp`. -/
def digitLoop (digits : List Nat) (base : Nat) : Nat → Nat → List Nat
  | 0, _ => []
  | capacity + 1, num =>
    if num > 0 then digits.getD (num % base) 0 :: digitLoop digits base capacity (num / base)
    else []

/-- Conversion of a value to a 32-bit `int`. -/
def toInt32 (v : Int) : Int := (v + 2 ^ 31) % 2 ^ 32 - 2 ^ 31

/-- `_itoa(value, buffer, base, is_signed)`: the contents of `buffer` before the
terminator. -/
def _itoa (value : Int) (base : Nat) (is_signed : Bool) : List Nat :=
  let negative := is_signed && decide (value < 0)
  let num : Nat := if negative then ((-value) % 2 ^ 32).toNat else (value % 2 ^ 32).toNat
  if num = 0 then [0x30]
  else (if negative then [0x2D] else []) ++ (digitLoop lowerDigits base 32 num).reverse

/-- `_utoa(value, buffer, base)`. -/
def _utoa (value : Nat) (base : Nat) : List Nat :=
  let num := value % 2 ^ 32
  if num = 0 then [0x30] else (digitLoop lowerDigits base 32 num).reverse

/-- `_utoa_upper(value, buffer, base)`. -/
def _utoa_upper (value : Nat) (base : Nat) : List Nat :=
  let num := value % 2 ^ 32
  if num = 0 then [0x30] else (digitLoop upperDigits base 32 num).reverse

/-- `_utoa64(value, buffer, base, uppercase)`. -/
def _utoa64 (value : Nat) (base : Nat) (uppercase : Bool) : List Nat :=
  let digits := if uppercase then upperDigits else lowerDigits
  let num := value % 2 ^ 64
  if num = 0 then [0x30] else (digitLoop digits base 65 num).reverse


/-- One variadic argument as the caller passed it: an `int` or `unsigned int`, a string
pointer (`none` is `NULL`, otherwise the bytes before the terminator), or a pointer. -/
inductive VArg
  | int (v : Int)
  | str (s : Option (List Nat))
  | ptr (p : Nat)
  deriving DecidableEq, Repr

/-- What the numeric conversions share: `GlobalRenderer->Print(buffer)`, the loop of
`serial_putc` over `buffer`, then `count` raised by `extra` and once per character of
`buffer`. -/
def printBuffer (lsr : LineStatus) (fuel : Nat) (buffer : List Nat) (extra : Int)
    (s : PrintState) : Option PrintState :=
  match serialString lsr fuel buffer { s with renderer := s.renderer ++ [RenderCall.print buffer] } with
  | none => none
  | some s1 => some { s1 with count := s1.count + extra + buffer.length }

/-- The `%s` loop `for (i = 0; str[i] != '\0'; i++) { count++; serial_putc(str[i]); }`. -/
def countedString (lsr : LineStatus) (fuel : Nat) : List Nat → PrintState → Option PrintState
  | [], s => some s
  | c :: cs, s =>
    match serial_putc lsr fuel c { s with count := s.count + 1 } with
    | none => none
    | some s1 => countedString lsr fuel cs s1

/-- The body of `if (*format == '%')` after `format++`, for the specifier byte `spec`:
the arguments left and the new state; `none` when `va_arg` has no argument of the
requested kind or the transmitter never gets ready. -/
def conversion (lsr : LineStatus) (fuel : Nat) (spec : Nat) (args : List VArg)
    (s : PrintState) : Option (List VArg × PrintState) :=
  if spec = 0x25 then
    match serial_putc lsr fuel 0x25
        { s with renderer := s.renderer ++ [RenderCall.putChar 0x25] } with
    | none => none
    | some s1 => some (args, { s1 with count := s1.count + 1 })
  else if spec = 0x64 ∨ spec = 0x69 then
    match args with
    | VArg.int v :: rest =>
      let value := toInt32 v
      let buffer := _itoa value 10 true
      match printBuffer lsr fuel buffer
          (if buffer.head? = some 0x2D ∧ value < 0 then 1 else 0) s with
      | none => none
      | some s1 => some (rest, s1)
    | _ => none
  else if spec = 0x75 then
    match args with
    | VArg.int v :: rest =>
      match printBuffer lsr fuel (_utoa (v % 2 ^ 32).toNat 10) 0 s with
      | none => none
      | some s1 => some (rest, s1)
    | _ => none
  else if spec = 0x78 then
    match args with
    | VArg.int v :: rest =>
      match printBuffer lsr fuel (_utoa (v % 2 ^ 32).toNat 16) 0 s with
      | none => none
      | some s1 => some (rest, s1)
    | _ => none
  else if spec = 0x58 then
    match args with
    | VArg.int v :: rest =>
      match printBuffer lsr fuel (_utoa_upper (v % 2 ^ 32).toNat 16) 0 s with
      | none => none
      | some s1 => some (rest, s1)
    | _ => none
  else if spec = 0x6F then
    match args with
    | VArg.int v :: rest =>
      match printBuffer lsr fuel (_utoa (v % 2 ^ 32).toNat 8) 0 s with
      | none => none
      | some s1 => some (rest, s1)
    | _ => none
  else if spec = 0x73 then
    match args with
    | VArg.str none :: rest => some (rest, s)
    | VArg.str (some str) :: rest =>
      match countedString lsr fuel str
          { s with renderer := s.renderer ++ [RenderCall.print str] } with
      | none => none
      | some s1 => some (rest, s1)
    | _ => none
  else if spec = 0x63 then
    match args with
    | VArg.int v :: rest =>
      let value := (v % 256).toNat
      match serial_putc lsr fuel value
          { s with renderer := s.renderer ++ [RenderCall.putChar value] } with
      | none => none
      | some s1 => some (rest, { s1 with count := s1.count + 1 })
    | _ => none
  else if spec = 0x70 then
    match args with
    | VArg.ptr p :: rest =>
      match serial_putc lsr fuel 0x30
          { s with renderer := s.renderer ++ [RenderCall.print [0x30, 0x78]] } with
      | none => none
      | some s1 =>
        match serial_putc lsr fuel 0x78 s1 with
        | none => none
        | some s2 =>
          let buffer := _utoa64 p 16 false
          match countedString lsr fuel buffer
              { s2 with count := s2.count + 2
                        renderer := s2.renderer ++ [RenderCall.print buffer] } with
          | none => none
          | some s3 => some (rest, s3)
    | _ => none
  else
    match serial_putc lsr fuel 0x25
        { s with renderer := s.renderer ++ [RenderCall.putChar 0x25, RenderCall.putChar spec] } with
    | none => none
    | some s1 =>
      match serial_putc lsr fuel spec s1 with
      | none => none
      | some s2 => some (args, { s2 with count := s2.count + 2 })

/-- The `while (*format != '\0')` loop of `kernel_vprintf` over the bytes of `format`
before its terminator.  A `%` that is the last byte makes the loop step over the
terminator and read on: that run has no defined result (`none`). -/
def formatLoop (lsr : LineStatus) (fuel : Nat) :
    List Nat → List VArg → PrintState → Option PrintState
  | [], _, s => some s
  | c :: rest, args, s =>
    if c = 0x25 then
      match rest with
      | [] => none
      | spec :: rest' =>
        match conversion lsr fuel spec args s with
        | none => none
        | some (args', s1) => formatLoop lsr fuel rest' args' s1
    else if c = 0x0A then
      match serial_putc lsr fuel 0x0D { s with renderer := s.renderer ++ [RenderCall.next] } with
      | none => none
      | some s1 =>
        match serial_putc lsr fuel 0x0A s1 with
        | none => none
        | some s2 => formatLoop lsr fuel rest args { s2 with count := s2.count + 1 }
    else
      match serial_putc lsr fuel c { s with renderer := s.renderer ++ [RenderCall.putChar c] } with
      | none => none
      | some s1 => formatLoop lsr fuel rest args { s1 with count := s1.count + 1 }

/-- `kernel_vprintf(format, args)`: `format` is `none` for a `NULL` pointer, `renderer`
tells whether `GlobalRenderer` is installed; the result's `count` is the value returned. -/
def kernel_vprintf (lsr : LineStatus) (fuel : Nat) (renderer : Bool)
    (format : Option (List Nat)) (args : List VArg) : Option PrintState :=
  match format with
  | none => some { renderer := [], serial := [], reads := 0, count := 0 }
  | some fmt =>
    if renderer = false then some { renderer := [], serial := [], reads := 0, count := 0 }
    else formatLoop lsr fuel fmt args { renderer := [], serial := [], reads := 0, count := 0 }

/-- Every line feed (`0x0A`) in the byte stream comes right after a carriage return
(`0x0D`); `prev` is the byte before the stream. -/
def lineFeedsFollowCR (prev : Option Nat) : List Nat → Bool
  | [] => true
  | c :: cs => (c != 0x0A || prev == some 0x0D) && lineFeedsFollowCR (some c) cs

/-! ## Further concrete inputs -/

/-- A device group based on the last page below `2 ^ 64`, covering bus 0. -/
def wrapConfig : DeviceConfig :=
  { BaseAddress := 0xFFFFFFFFFFFFF000, StartBus := 0, EndBus := 1 }

/-- A PCI-Express base table whose one record is `wrapConfig`. -/
def wrapTable : MCFGHeader := { Length := 60, records := fun _ => wrapConfig }

/-- A configuration space with AHCI controllers at the addresses `0xFFFFFFFFFFFFF000` and
`0`: functions (0,0,0) and (0,0,1) of `wrapConfig`, whose second address wraps around. -/
def wrapSpace : ConfigSpace := fun a =>
  if a = 0xFFFFFFFFFFFFF000 ∨ a = 0 then ahciHeader else emptyHeader

/-- The sample boot snapshot with a memory-descriptor size of zero. -/
def zeroStrideBoot : BootInfo := { sampleBoot with mMapDescSize := 0 }

/-- A boot snapshot without ACPI root pointer and with a memory-descriptor size of zero. -/
def nullRootZeroStrideBoot : BootInfo := { overlapBoot with mMapDescSize := 0 }

/-- What `PrepareACPI` may emit: `kernel_printf` lines and, inside `EnumeratePCI`, mapping
requests, header reads and driver constructions. -/
def Event.isDiscovery : Event → Bool
  | .kprintf _ _ => true
  | .mapMemory _ _ => true
  | .readHeader _ => true
  | .newAHCIDriver _ => true
  | _ => false

/-! ## Presence test and AHCI dispatch of `EnumerateFunction` -/

theorem filter_isDriver_describeFunction (a : Nat) (hdr : PCIDeviceHeader) :
    (describeFunction a hdr).filter Event.isDriver = [] := by
  simp [describeFunction, Event.isDriver]

theorem filter_isDriver_classSwitch (a : Nat) (hdr : PCIDeviceHeader) :
    (classSwitch a hdr).filter Event.isDriver =
      if hdr.Class = 0x01 ∧ hdr.Subclass = 0x06 ∧ hdr.ProgIF = 0x01 then
        [Event.newAHCIDriver a] else [] := by
  unfold classSwitch subclassSwitch progIFSwitch
  by_cases hc : hdr.Class = 0x01 <;> by_cases hs : hdr.Subclass = 0x06 <;>
    by_cases hp : hdr.ProgIF = 0x01 <;> simp [hc, hs, hp, Event.isDriver]

theorem isPresent_eq_false_iff (hdr : PCIDeviceHeader) :
    isPresent hdr = false ↔ hdr.DeviceID = 0 ∨ hdr.DeviceID = 0xFFFF := by
  unfold isPresent
  by_cases h0 : hdr.DeviceID = 0 <;> by_cases hF : hdr.DeviceID = 0xFFFF <;> simp [h0, hF]

theorem isPresent_eq_true_iff (hdr : PCIDeviceHeader) :
    isPresent hdr = true ↔ hdr.DeviceID ≠ 0 ∧ hdr.DeviceID ≠ 0xFFFF := by
  unfold isPresent
  by_cases h0 : hdr.DeviceID = 0 <;> by_cases hF : hdr.DeviceID = 0xFFFF <;> simp [h0, hF]

/-- What is left of `EnumerateFunction` once mapping requests and header reads are filtered
out: nothing for an absent function, the lines and the dispatch for a present one. -/
theorem filter_EnumerateFunction (q : Event → Bool) (hm : ∀ v p, q (Event.mapMemory v p) = false)
    (hr : ∀ a, q (Event.readHeader a) = false) (cs : ConfigSpace) (deviceAddress function : Nat) :
    (EnumerateFunction cs deviceAddress function).filter q =
      if isPresent (cs (add64 deviceAddress (shl64 function 12))) then
        (describeFunction (add64 deviceAddress (shl64 function 12))
            (cs (add64 deviceAddress (shl64 function 12))) ++
          classSwitch (add64 deviceAddress (shl64 function 12))
            (cs (add64 deviceAddress (shl64 function 12)))).filter q
      else [] := by
  unfold EnumerateFunction
  by_cases hp : isPresent (cs (add64 deviceAddress (shl64 function 12))) = true
  · obtain ⟨h0, hF⟩ := (isPresent_eq_true_iff _).mp hp
    simp [hp, h0, hF, hm, hr]
  · rw [Bool.not_eq_true] at hp
    rcases (isPresent_eq_false_iff _).mp hp with h | h
    · simp [hp, h, hm, hr]
    · simp [hp, h, hm, hr]

/-- C1 (amended): a function header whose device id is `0` or `0xFFFF` is treated as absent
by `EnumerateFunction`: no diagnostic line is printed and no AHCI driver is constructed,
whatever the vendor id, class, subclass and programming interface are. -/
theorem EnumerateFunction_absent_silent (cs : ConfigSpace) (deviceAddress function : Nat)
    (h : (cs (add64 deviceAddress (shl64 function 12))).DeviceID = 0 ∨
         (cs (add64 deviceAddress (shl64 function 12))).DeviceID = 0xFFFF) :
    (EnumerateFunction cs deviceAddress function).filter Event.isReport = [] := by
  rw [filter_EnumerateFunction Event.isReport (fun _ _ => rfl) (fun _ => rfl),
    (isPresent_eq_false_iff _).mpr h]
  rfl

/-- Witness for `EnumerateFunction_absent_silent`: an all-ones header and a header with
device id `0` but the AHCI class triple. -/
theorem EnumerateFunction_absent_silent_witness :
    (EnumerateFunction emptySpace 0xE0000000 3).filter Event.isReport = [] ∧
    (EnumerateFunction (fun _ => { ahciHeader with DeviceID := 0 }) 0xE0000000 3).filter
      Event.isReport = [] :=
  ⟨EnumerateFunction_absent_silent emptySpace 0xE0000000 3 (Or.inr (by decide)),
   EnumerateFunction_absent_silent (fun _ => { ahciHeader with DeviceID := 0 }) 0xE0000000 3
     (Or.inl (by decide))⟩

/-- C1 (counterexample): a header with vendor id `0xFFFF` and device id `0x2922` is logged
and gets an AHCI driver. -/
theorem EnumerateFunction_vendorFFFF_reported :
    ((fun _ => vendorFFFFHeader : ConfigSpace) (add64 0xE0000000 (shl64 3 12))).VendorID
      = 0xFFFF ∧
    (EnumerateFunction (fun _ => vendorFFFFHeader) 0xE0000000 3).filter Event.isReport =
      [Event.kprintf "    [PCI Device] %s / %s\n"
         [Arg.vendorName 0xFFFF, Arg.deviceName 0xFFFF 0x2922],
       Event.kprintf "      - Class: %s\n" [Arg.className 1],
       Event.kprintf "      - Subclass: %s\n" [Arg.subclassName 1 6],
       Event.kprintf "      - ProgIF: %s\n" [Arg.progIFName 1 6 1],
       Event.kprintf "      - Vendor ID: 0x%x, Device ID: 0x%x\n" [Arg.num 0xFFFF, Arg.num 0x2922],
       Event.kprintf "      [AHCI] Initializing AHCI driver...\n" [],
       Event.newAHCIDriver 0xE0003000] := by
  decide

/-- C2: for a function `EnumerateFunction` treats as present (device id neither `0` nor
`0xFFFF`), the AHCI driver constructions it makes are exactly one, bound to the function's
header address, when class = 0x01, subclass = 0x06 and programming interface = 0x01, and
none for every other triple. -/
theorem EnumerateFunction_ahci_dispatch (cs : ConfigSpace) (deviceAddress function : Nat)
    (h0 : (cs (add64 deviceAddress (shl64 function 12))).DeviceID ≠ 0)
    (hF : (cs (add64 deviceAddress (shl64 function 12))).DeviceID ≠ 0xFFFF) :
    (EnumerateFunction cs deviceAddress function).filter Event.isDriver =
      if (cs (add64 deviceAddress (shl64 function 12))).Class = 0x01 ∧
         (cs (add64 deviceAddress (shl64 function 12))).Subclass = 0x06 ∧
         (cs (add64 deviceAddress (shl64 function 12))).ProgIF = 0x01 then
        [Event.newAHCIDriver (add64 deviceAddress (shl64 function 12))]
      else [] := by
  unfold EnumerateFunction
  simp only [h0, hF, if_false, List.filter_cons, Event.isDriver, List.filter_append,
    filter_isDriver_describeFunction, filter_isDriver_classSwitch, List.nil_append]
  simp

/-- Witness for `EnumerateFunction_ahci_dispatch`: the triple 01/06/01 gives one driver at
the function's address, the triple 01/06/00 gives none. -/
theorem EnumerateFunction_ahci_dispatch_witness :
    (EnumerateFunction (fun _ => ahciHeader) 0xE0000000 3).filter Event.isDriver =
      [Event.newAHCIDriver 0xE0003000] ∧
    (EnumerateFunction (fun _ => sataHeader) 0xE0000000 3).filter Event.isDriver = [] :=
  ⟨EnumerateFunction_ahci_dispatch (fun _ => ahciHeader) 0xE0000000 3 (by decide) (by decide),
   EnumerateFunction_ahci_dispatch (fun _ => sataHeader) 0xE0000000 3 (by decide) (by decide)⟩

/-! ## The loops of `EnumeratePCI` -/

theorem busLoop_eq_flatMap (cs : ConfigSpace) (cfg : DeviceConfig) (bus : Nat) :
    busLoop cs cfg bus =
      (List.range' bus (cfg.EndBus - bus)).flatMap (EnumerateBus cs cfg.BaseAddress) := by
  generalize hn : cfg.EndBus - bus = n
  induction n generalizing bus with
  | zero =>
    rw [busLoop, if_neg (by omega)]
    simp
  | succ n ih =>
    rw [busLoop, if_pos (by omega), ih (bus + 1) (by omega)]
    simp [List.range'_succ]

theorem recordLoop_eq_flatMap (cs : ConfigSpace) (mcfg : MCFGHeader) (entries : Int) (t : Nat) :
    recordLoop cs mcfg entries t =
      (List.range' t (entries.toNat - t)).flatMap
        (fun t => busLoop cs (mcfg.records t) (mcfg.records t).StartBus) := by
  generalize hn : entries.toNat - t = n
  induction n generalizing t with
  | zero =>
    rw [recordLoop, if_neg (by omega)]
    simp
  | succ n ih =>
    rw [recordLoop, if_pos (by omega), ih (t + 1) (by omega)]
    simp [List.range'_succ]

theorem EnumeratePCI_eq_flatMap (cs : ConfigSpace) (mcfg : MCFGHeader) :
    EnumeratePCI cs mcfg =
      (List.range (mcfgEntries mcfg).toNat).flatMap (fun t =>
        (List.range' (mcfg.records t).StartBus
          ((mcfg.records t).EndBus - (mcfg.records t).StartBus)).flatMap
            (EnumerateBus cs (mcfg.records t).BaseAddress)) := by
  unfold EnumeratePCI
  rw [recordLoop_eq_flatMap, List.range_eq_range']
  simp only [Nat.sub_zero]
  exact List.flatMap_congr (fun t _ => busLoop_eq_flatMap cs (mcfg.records t) _)

theorem count_range' (s n b : Nat) :
    (List.range' s n).count b = if s ≤ b ∧ b < s + n then 1 else 0 := by
  by_cases h : s ≤ b ∧ b < s + n
  · rw [if_pos h]
    exact List.count_eq_one_of_mem (List.nodup_range' s n) (List.mem_range'_1.mpr h)
  · rw [if_neg h]
    exact List.count_eq_zero_of_not_mem (fun hm => h (List.mem_range'_1.mp hm))

/-- C3 (amended): when the header at a bus's base address reads device id `0` or `0xFFFF`,
`EnumerateBus` maps that one page, tests it and returns: the only mapping request is the
bus's own, every event is that mapping or a read of that header, so no function of
device 0 is descended into and none of devices 1 to 31 is probed. -/
theorem EnumerateBus_absent_stops (cs : ConfigSpace) (baseAddress bus : Nat)
    (h : (cs (add64 baseAddress (shl64 bus 20))).DeviceID = 0 ∨
         (cs (add64 baseAddress (shl64 bus 20))).DeviceID = 0xFFFF) :
    (EnumerateBus cs baseAddress bus).filter Event.isMap =
      [Event.mapMemory (add64 baseAddress (shl64 bus 20)) (add64 baseAddress (shl64 bus 20))] ∧
    ∀ e ∈ EnumerateBus cs baseAddress bus,
      e = Event.mapMemory (add64 baseAddress (shl64 bus 20)) (add64 baseAddress (shl64 bus 20)) ∨
      e = Event.readHeader (add64 baseAddress (shl64 bus 20)) := by
  unfold EnumerateBus
  rcases h with h | h
  · simp [h, Event.isMap]
  · simp [h, Event.isMap]

/-- Witness for `EnumerateBus_absent_stops`: bus 0 of an empty configuration space. -/
theorem EnumerateBus_absent_stops_witness :
    (EnumerateBus emptySpace 0 0).filter Event.isMap = [Event.mapMemory 0 0] ∧
    ∀ e ∈ EnumerateBus emptySpace 0 0, e = Event.mapMemory 0 0 ∨ e = Event.readHeader 0 :=
  EnumerateBus_absent_stops emptySpace 0 0 (Or.inr (by decide))

/-- C3 (counterexample): in the empty configuration space of a group based at
`0xE0000000`, function (0,0,0) reads vendor id `0xFFFF`, and enumerating bus 0 touches the
bus's leading header only; the page of device 1 (`0xE0008000`) is never mapped. -/
theorem EnumerateBus_empty_skips_devices :
    (emptySpace (functionAddressOf 0xE0000000 0 0 0)).VendorID = 0xFFFF ∧
    EnumerateBus emptySpace 0xE0000000 0 =
      [Event.mapMemory 0xE0000000 0xE0000000, Event.readHeader 0xE0000000,
       Event.readHeader 0xE0000000] ∧
    deviceAddressOf 0xE0000000 0 1 = 0xE0008000 ∧
    Event.mapMemory 0xE0008000 0xE0008000 ∉ EnumerateBus emptySpace 0xE0000000 0 := by
  decide

/-- C8: for every PCI-Express base table, `EnumeratePCI` runs the bus loop for each of its
device-group records in turn; for every record the bus loop runs `EnumerateBus` for exactly
the bus numbers `StartBus ≤ b < EndBus`, each once and in ascending order, so bus `EndBus`
is never probed and a record with `StartBus ≥ EndBus` probes no bus; and `EnumerateBus`
starts by mapping and reading the header at `BaseAddress + (b << 20)` (64-bit
arithmetic). -/
theorem EnumeratePCI_bus_range (cs : ConfigSpace) (mcfg : MCFGHeader) :
    EnumeratePCI cs mcfg =
      (List.range (mcfgEntries mcfg).toNat).flatMap (fun t =>
        (List.range' (mcfg.records t).StartBus
          ((mcfg.records t).EndBus - (mcfg.records t).StartBus)).flatMap
            (EnumerateBus cs (mcfg.records t).BaseAddress)) ∧
    (∀ cfg : DeviceConfig,
      busLoop cs cfg cfg.StartBus =
        (List.range' cfg.StartBus (cfg.EndBus - cfg.StartBus)).flatMap
          (EnumerateBus cs cfg.BaseAddress) ∧
      (∀ b : Nat, (List.range' cfg.StartBus (cfg.EndBus - cfg.StartBus)).count b =
        if cfg.StartBus ≤ b ∧ b < cfg.EndBus then 1 else 0) ∧
      (cfg.EndBus ≤ cfg.StartBus → busLoop cs cfg cfg.StartBus = [])) ∧
    (∀ baseAddress b : Nat, ∃ rest,
      EnumerateBus cs baseAddress b =
        Event.mapMemory ((baseAddress + (b * 2 ^ 20) % 2 ^ 64) % 2 ^ 64)
            ((baseAddress + (b * 2 ^ 20) % 2 ^ 64) % 2 ^ 64) ::
          Event.readHeader ((baseAddress + (b * 2 ^ 20) % 2 ^ 64) % 2 ^ 64) :: rest) := by
  refine ⟨EnumeratePCI_eq_flatMap cs mcfg, fun cfg => ⟨busLoop_eq_flatMap cs cfg _, ?_, ?_⟩, ?_⟩
  · intro b
    rw [count_range']
    by_cases h : cfg.StartBus ≤ b ∧ b < cfg.EndBus
    · rw [if_pos h, if_pos ⟨h.1, by omega⟩]
    · rw [if_neg h, if_neg (fun h2 => h ⟨h2.1, by omega⟩)]
  · intro h
    rw [busLoop, if_neg (by omega)]
  · intro baseAddress b
    exact ⟨_, rfl⟩

/-- Witness for `EnumeratePCI_bus_range`: a record for buses 2, 3, 4 probes bus 4 once and
bus 5 never; a record with `StartBus = 5`, `EndBus = 2` probes nothing. -/
theorem EnumeratePCI_bus_range_witness :
    (List.range' 2 (5 - 2)).count 4 = 1 ∧
    (List.range' 2 (5 - 2)).count 5 = 0 ∧
    busLoop emptySpace { BaseAddress := 0xE0000000, StartBus := 5, EndBus := 2 } 5 = [] :=
  ⟨((EnumeratePCI_bus_range emptySpace oneRecordTable).2.1 threeBusConfig).2.1 4,
   ((EnumeratePCI_bus_range emptySpace oneRecordTable).2.1 threeBusConfig).2.1 5,
   ((EnumeratePCI_bus_range emptySpace oneRecordTable).2.1
      { BaseAddress := 0xE0000000, StartBus := 5, EndBus := 2 }).2.2 (by decide)⟩

/-! ## Every header read is preceded by the identity mapping of its address -/

theorem MappedBeforeRead.nil : MappedBeforeRead [] := by
  intro pre A post h
  simp at h

theorem MappedBeforeRead.append {t1 t2 : List Event} (h1 : MappedBeforeRead t1)
    (h2 : MappedBeforeRead t2) : MappedBeforeRead (t1 ++ t2) := by
  intro pre A post h
  rw [List.append_eq_append_iff] at h
  rcases h with ⟨a, rfl, ha⟩ | ⟨c, hc, hcc⟩
  · exact List.mem_append_right _ (h2 _ _ _ ha)
  · cases c with
    | nil =>
      simp only [List.nil_append] at hcc
      exact absurd (h2 [] A post hcc.symm) (by simp)
    | cons x c =>
      simp only [List.cons_append, List.cons.injEq] at hcc
      obtain ⟨rfl, -⟩ := hcc
      exact h1 _ _ _ hc

theorem MappedBeforeRead.flatMap {α : Type} (l : List α) (f : α → List Event)
    (h : ∀ x, MappedBeforeRead (f x)) : MappedBeforeRead (l.flatMap f) := by
  induction l with
  | nil => exact MappedBeforeRead.nil
  | cons x l ih =>
    rw [List.flatMap_cons]
    exact (h x).append ih

/-- After the mapping of `a`, reads of `a` and other calls may follow, then any trace that
is itself safe. -/
theorem MappedBeforeRead.guarded (a : Nat) (own rest : List Event)
    (hown : ∀ e ∈ own, ∀ A, e = Event.readHeader A → A = a) (hrest : MappedBeforeRead rest) :
    MappedBeforeRead (Event.mapMemory a a :: (own ++ rest)) := by
  intro pre A post h
  cases pre with
  | nil => simp at h
  | cons x pre =>
    simp only [List.cons_append, List.cons.injEq] at h
    obtain ⟨rfl, h⟩ := h
    rw [List.append_eq_append_iff] at h
    rcases h with ⟨b, rfl, hb⟩ | ⟨c, hc, hcc⟩
    · exact List.mem_cons_of_mem _ (List.mem_append_right _ (hrest _ _ _ hb))
    · cases c with
      | nil =>
        simp only [List.nil_append] at hcc
        exact absurd (hrest [] A post hcc.symm) (by simp)
      | cons y c =>
        simp only [List.cons_append, List.cons.injEq] at hcc
        obtain ⟨rfl, -⟩ := hcc
        have hmem : Event.readHeader A ∈ own := by rw [hc]; simp
        have hA := hown _ hmem A rfl
        subst hA
        exact List.mem_cons_self _ _

theorem reads_describeFunction (a : Nat) (hdr : PCIDeviceHeader) :
    ∀ e ∈ describeFunction a hdr ++ classSwitch a hdr, ∀ A, e = Event.readHeader A → A = a := by
  intro e he A hA
  subst hA
  unfold describeFunction classSwitch subclassSwitch progIFSwitch at he
  by_cases hc : hdr.Class = 0x01 <;> by_cases hs : hdr.Subclass = 0x06 <;>
    by_cases hp : hdr.ProgIF = 0x01 <;> simp [hc, hs, hp] at he <;> exact he

theorem MappedBeforeRead_EnumerateFunction (cs : ConfigSpace) (deviceAddress function : Nat) :
    MappedBeforeRead (EnumerateFunction cs deviceAddress function) := by
  unfold EnumerateFunction
  have key := MappedBeforeRead.guarded (add64 deviceAddress (shl64 function 12))
  by_cases h0 : (cs (add64 deviceAddress (shl64 function 12))).DeviceID = 0
  · simpa [h0] using key [Event.readHeader _] [] (by simp) MappedBeforeRead.nil
  · by_cases hF : (cs (add64 deviceAddress (shl64 function 12))).DeviceID = 0xFFFF
    · simpa [h0, hF] using key [Event.readHeader _, Event.readHeader _] [] (by simp)
        MappedBeforeRead.nil
    · have := key
        (Event.readHeader _ :: Event.readHeader _ ::
          (describeFunction _ (cs (add64 deviceAddress (shl64 function 12))) ++
            classSwitch _ (cs (add64 deviceAddress (shl64 function 12))))) []
        (by
          intro e he A hA
          simp only [List.mem_cons] at he
          rcases he with rfl | rfl | he
          · simpa using hA.symm
          · simpa using hA.symm
          · exact reads_describeFunction _ _ e he A hA)
        MappedBeforeRead.nil
      simpa [h0, hF] using this

theorem MappedBeforeRead_EnumerateDevice (cs : ConfigSpace) (busAddress device : Nat) :
    MappedBeforeRead (EnumerateDevice cs busAddress device) := by
  unfold EnumerateDevice
  have key := MappedBeforeRead.guarded (add64 busAddress (shl64 device 15))
  by_cases h0 : (cs (add64 busAddress (shl64 device 15))).DeviceID = 0
  · simpa [h0] using key [Event.readHeader _] [] (by simp) MappedBeforeRead.nil
  · by_cases hF : (cs (add64 busAddress (shl64 device 15))).DeviceID = 0xFFFF
    · simpa [h0, hF] using key [Event.readHeader _, Event.readHeader _] [] (by simp)
        MappedBeforeRead.nil
    · have := key [Event.readHeader (add64 busAddress (shl64 device 15)),
          Event.readHeader (add64 busAddress (shl64 device 15))] _ (by simp)
        (MappedBeforeRead.flatMap (List.range 8)
          (fun function => EnumerateFunction cs (add64 busAddress (shl64 device 15)) function)
          (fun function => MappedBeforeRead_EnumerateFunction cs _ function))
      simpa [h0, hF] using this

theorem MappedBeforeRead_EnumerateBus (cs : ConfigSpace) (baseAddress bus : Nat) :
    MappedBeforeRead (EnumerateBus cs baseAddress bus) := by
  unfold EnumerateBus
  have key := MappedBeforeRead.guarded (add64 baseAddress (shl64 bus 20))
  by_cases h0 : (cs (add64 baseAddress (shl64 bus 20))).DeviceID = 0
  · simpa [h0] using key [Event.readHeader _] [] (by simp) MappedBeforeRead.nil
  · by_cases hF : (cs (add64 baseAddress (shl64 bus 20))).DeviceID = 0xFFFF
    · simpa [h0, hF] using key [Event.readHeader _, Event.readHeader _] [] (by simp)
        MappedBeforeRead.nil
    · have := key [Event.readHeader (add64 baseAddress (shl64 bus 20)),
          Event.readHeader (add64 baseAddress (shl64 bus 20))] _ (by simp)
        (MappedBeforeRead.flatMap (List.range 32)
          (fun device => EnumerateDevice cs (add64 baseAddress (shl64 bus 20)) device)
          (fun device => MappedBeforeRead_EnumerateDevice cs _ device))
      simpa [h0, hF] using this

theorem MappedBeforeRead_EnumeratePCI (cs : ConfigSpace) (mcfg : MCFGHeader) :
    MappedBeforeRead (EnumeratePCI cs mcfg) := by
  rw [EnumeratePCI_eq_flatMap]
  exact MappedBeforeRead.flatMap _ _ (fun t =>
    MappedBeforeRead.flatMap _ _ (fun b => MappedBeforeRead_EnumerateBus cs _ b))

/-- C9: during `EnumeratePCI`, whenever a configuration-space header is read at an address
`A` (at bus, device or function level), the identity mapping request `MapMemory(A, A)`
occurs at an earlier position of the same trace. -/
theorem EnumeratePCI_reads_mapped (cs : ConfigSpace) (mcfg : MCFGHeader) (i A : Nat)
    (h : (EnumeratePCI cs mcfg)[i]? = some (Event.readHeader A)) :
    ∃ j, j < i ∧ (EnumeratePCI cs mcfg)[j]? = some (Event.mapMemory A A) := by
  obtain ⟨hi, hget⟩ := List.getElem?_eq_some.mp h
  have hsplit : EnumeratePCI cs mcfg =
      (EnumeratePCI cs mcfg).take i ++ Event.readHeader A :: (EnumeratePCI cs mcfg).drop (i + 1) := by
    rw [← hget, ← List.drop_eq_getElem_cons hi, List.take_append_drop]
  have hmem := MappedBeforeRead_EnumeratePCI cs mcfg _ A _ hsplit
  obtain ⟨j, hj, hjeq⟩ := List.mem_iff_getElem.mp hmem
  rw [List.length_take] at hj
  refine ⟨j, by omega, ?_⟩
  rw [List.getElem_take] at hjeq
  rw [← hjeq]
  exact List.getElem?_eq_getElem _

/-- Witness for `EnumeratePCI_reads_mapped`: with one AHCI controller on bus 0, the read at
position 9 of the trace (the first line printed for the controller) is of an address
mapped earlier. -/
theorem EnumeratePCI_reads_mapped_witness :
    (EnumeratePCI oneAhciSpace oneRecordTable)[9]? = some (Event.readHeader 0xE0000000) ∧
    ∃ j, j < 9 ∧
      (EnumeratePCI oneAhciSpace oneRecordTable)[j]? =
        some (Event.mapMemory 0xE0000000 0xE0000000) :=
  have h : (EnumeratePCI oneAhciSpace oneRecordTable)[9]? = some (Event.readHeader 0xE0000000) := by
    rw [EnumeratePCI_eq_flatMap]
    decide
  ⟨h, EnumeratePCI_reads_mapped oneAhciSpace oneRecordTable 9 0xE0000000 h⟩

/-! ## Enumeration order -/

theorem filter_EnumerateDevice (q : Event → Bool) (hm : ∀ v p, q (Event.mapMemory v p) = false)
    (hr : ∀ a, q (Event.readHeader a) = false) (cs : ConfigSpace) (busAddress device : Nat) :
    (EnumerateDevice cs busAddress device).filter q =
      if isPresent (cs (add64 busAddress (shl64 device 15))) then
        (List.range 8).flatMap (fun function =>
          (EnumerateFunction cs (add64 busAddress (shl64 device 15)) function).filter q)
      else [] := by
  unfold EnumerateDevice
  by_cases hp : isPresent (cs (add64 busAddress (shl64 device 15))) = true
  · obtain ⟨h0, hF⟩ := (isPresent_eq_true_iff _).mp hp
    simp [hp, h0, hF, hm, hr, List.filter_flatMap]
  · rw [Bool.not_eq_true] at hp
    rcases (isPresent_eq_false_iff _).mp hp with h | h
    · simp [hp, h, hm, hr]
    · simp [hp, h, hm, hr]

theorem filter_EnumerateBus (q : Event → Bool) (hm : ∀ v p, q (Event.mapMemory v p) = false)
    (hr : ∀ a, q (Event.readHeader a) = false) (cs : ConfigSpace) (baseAddress bus : Nat) :
    (EnumerateBus cs baseAddress bus).filter q =
      if isPresent (cs (add64 baseAddress (shl64 bus 20))) then
        (List.range 32).flatMap (fun device =>
          (EnumerateDevice cs (add64 baseAddress (shl64 bus 20)) device).filter q)
      else [] := by
  unfold EnumerateBus
  by_cases hp : isPresent (cs (add64 baseAddress (shl64 bus 20))) = true
  · obtain ⟨h0, hF⟩ := (isPresent_eq_true_iff _).mp hp
    simp [hp, h0, hF, hm, hr, List.filter_flatMap]
  · rw [Bool.not_eq_true] at hp
    rcases (isPresent_eq_false_iff _).mp hp with h | h
    · simp [hp, h, hm, hr]
    · simp [hp, h, hm, hr]

/-- The filtered trace of one device group is the concatenation, over the functions found
in (bus, device, function) order, of the filtered trace of `EnumerateFunction`. -/
theorem filter_busLoop (q : Event → Bool) (hm : ∀ v p, q (Event.mapMemory v p) = false)
    (hr : ∀ a, q (Event.readHeader a) = false) (cs : ConfigSpace) (cfg : DeviceConfig) :
    (busLoop cs cfg cfg.StartBus).filter q =
      (foundFunctions cs cfg).flatMap (fun t =>
        (EnumerateFunction cs (deviceAddressOf cfg.BaseAddress t.1 t.2.1) t.2.2).filter q) := by
  rw [busLoop_eq_flatMap, List.filter_flatMap]
  unfold foundFunctions
  rw [List.flatMap_assoc]
  refine List.flatMap_congr (fun b _ => ?_)
  rw [filter_EnumerateBus q hm hr, List.flatMap_assoc]
  by_cases hb : isPresent (cs (add64 cfg.BaseAddress (shl64 b 20))) = true
  · rw [if_pos hb]
    refine List.flatMap_congr (fun d _ => ?_)
    rw [filter_EnumerateDevice q hm hr, List.flatMap_assoc]
    by_cases hd : isPresent (cs (add64 (add64 cfg.BaseAddress (shl64 b 20)) (shl64 d 15))) = true
    · rw [if_pos hd]
      refine List.flatMap_congr (fun f _ => ?_)
      by_cases hf : isPresent (cs (functionAddressOf cfg.BaseAddress b d f)) = true
      · simp [busAddressOf, deviceAddressOf, hb, hd, hf]
      · have hf2 := hf
        rw [Bool.not_eq_true] at hf2
        rw [filter_EnumerateFunction q hm hr]
        simp only [functionAddressOf, deviceAddressOf, busAddressOf] at hf2
        simp [busAddressOf, deviceAddressOf, functionAddressOf, hb, hd, hf2]
    · rw [if_neg hd]
      rw [Bool.not_eq_true] at hd
      simp [busAddressOf, deviceAddressOf, hb, hd]
  · rw [if_neg hb]
    rw [Bool.not_eq_true] at hb
    simp [busAddressOf, hb]

theorem pairwise_lexLt_triples (buses : List Nat) (hb : buses.Pairwise (fun a b => a < b))
    (c : Nat → Nat → Nat → Bool) :
    (buses.flatMap fun b => (List.range 32).flatMap fun d => (List.range 8).flatMap fun f =>
      if c b d f then [(b, d, f)] else []).Pairwise lexLt := by
  rw [List.pairwise_flatMap]
  refine ⟨fun b _ => ?_, hb.imp ?_⟩
  · rw [List.pairwise_flatMap]
    refine ⟨fun d _ => ?_, (List.pairwise_lt_range 32).imp ?_⟩
    · rw [List.pairwise_flatMap]
      refine ⟨fun f _ => ?_, (List.pairwise_lt_range 8).imp ?_⟩
      · split <;> simp
      · intro f1 f2 hlt x hx y hy
        split at hx <;> split at hy <;> simp at hx hy
        subst hx hy
        exact Or.inr ⟨rfl, Or.inr ⟨rfl, hlt⟩⟩
    · intro d1 d2 hlt x hx y hy
      simp only [List.mem_flatMap, List.mem_range] at hx hy
      obtain ⟨f1, _, hx⟩ := hx
      obtain ⟨f2, _, hy⟩ := hy
      split at hx <;> split at hy <;> simp at hx hy
      subst hx hy
      exact Or.inr ⟨rfl, Or.inl hlt⟩
  · intro b1 b2 hlt x hx y hy
    simp only [List.mem_flatMap, List.mem_range] at hx hy
    obtain ⟨d1, _, f1, _, hx⟩ := hx
    obtain ⟨d2, _, f2, _, hy⟩ := hy
    split at hx <;> split at hy <;> simp at hx hy
    subst hx hy
    exact Or.inl hlt

theorem flatMap_ite_singleton {α β : Type} (l : List α) (c : α → Bool) (g : α → β) :
    l.flatMap (fun t => if c t then [g t] else []) = (l.filter c).map g := by
  induction l with
  | nil => rfl
  | cons x l ih =>
    rw [List.flatMap_cons, ih]
    by_cases h : c x <;> simp [h]

theorem pairwise_lexLt_foundFunctions (cs : ConfigSpace) (cfg : DeviceConfig) :
    (foundFunctions cs cfg).Pairwise lexLt :=
  pairwise_lexLt_triples _ (List.pairwise_lt_range' _ _) _

theorem mem_foundFunctions (cs : ConfigSpace) (cfg : DeviceConfig) (t : Nat × Nat × Nat)
    (h : t ∈ foundFunctions cs cfg) :
    cfg.StartBus ≤ t.1 ∧ t.1 < cfg.EndBus ∧ t.2.1 < 32 ∧ t.2.2 < 8 ∧
      isPresent (cs (functionAddressOf cfg.BaseAddress t.1 t.2.1 t.2.2)) = true := by
  unfold foundFunctions at h
  simp only [List.mem_flatMap, List.mem_range, List.mem_range'_1] at h
  obtain ⟨b, hb, d, hd, f, hf, ht⟩ := h
  split at ht
  · rename_i hc
    simp only [Bool.and_eq_true] at hc
    simp only [List.mem_singleton] at ht
    subst ht
    exact ⟨hb.1, by omega, hd, hf, hc.2⟩
  · simp at ht

theorem functionAddressOf_eq (baseAddress b d f : Nat) :
    functionAddressOf baseAddress b d f = (baseAddress + functionOffset (b, d, f)) % 2 ^ 64 := by
  simp only [functionAddressOf, deviceAddressOf, busAddressOf, add64, shl64, functionOffset]
  norm_num
  omega

theorem filter_EnumeratePCI (q : Event → Bool) (hm : ∀ v p, q (Event.mapMemory v p) = false)
    (hr : ∀ a, q (Event.readHeader a) = false) (cs : ConfigSpace) (mcfg : MCFGHeader) :
    (EnumeratePCI cs mcfg).filter q =
      (List.range (mcfgEntries mcfg).toNat).flatMap (fun t =>
        (foundFunctions cs (mcfg.records t)).flatMap (fun x =>
          (EnumerateFunction cs (deviceAddressOf (mcfg.records t).BaseAddress x.1 x.2.1)
            x.2.2).filter q)) := by
  unfold EnumeratePCI
  rw [recordLoop_eq_flatMap, List.range_eq_range', List.filter_flatMap]
  simp only [Nat.sub_zero]
  exact List.flatMap_congr (fun t _ => filter_busLoop q hm hr cs (mcfg.records t))

theorem filter_isDriver_found (cs : ConfigSpace) (baseAddress b d f : Nat)
    (hp : isPresent (cs (functionAddressOf baseAddress b d f)) = true) :
    (EnumerateFunction cs (deviceAddressOf baseAddress b d) f).filter Event.isDriver =
      if isAHCI (cs (functionAddressOf baseAddress b d f)) then
        [Event.newAHCIDriver (functionAddressOf baseAddress b d f)] else [] := by
  rw [filter_EnumerateFunction Event.isDriver (fun _ _ => rfl) (fun _ => rfl)]
  unfold functionAddressOf at hp ⊢
  rw [if_pos hp, List.filter_append, filter_isDriver_describeFunction,
    filter_isDriver_classSwitch, List.nil_append]
  simp [isAHCI, and_assoc]

theorem filter_isKprintf_found (cs : ConfigSpace) (baseAddress b d f : Nat)
    (hp : isPresent (cs (functionAddressOf baseAddress b d f)) = true) :
    (EnumerateFunction cs (deviceAddressOf baseAddress b d) f).filter Event.isKprintf ≠ [] := by
  rw [filter_EnumerateFunction Event.isKprintf (fun _ _ => rfl) (fun _ => rfl)]
  unfold functionAddressOf at hp
  rw [if_pos hp]
  simp [describeFunction, Event.isKprintf]

theorem functionOffset_lt_of_lexLt (x y : Nat × Nat × Nat) (hx : x.2.1 < 32 ∧ x.2.2 < 8)
    (hy : y.2.1 < 32 ∧ y.2.2 < 8) (h : lexLt x y) : functionOffset x < functionOffset y := by
  unfold functionOffset
  unfold lexLt at h
  norm_num
  omega

theorem functionAddressOf_lt_of_lexLt (cfg : DeviceConfig)
    (hwrap : cfg.BaseAddress + cfg.EndBus * 2 ^ 20 ≤ 2 ^ 64) (x y : Nat × Nat × Nat)
    (hx : x.1 < cfg.EndBus ∧ x.2.1 < 32 ∧ x.2.2 < 8)
    (hy : y.1 < cfg.EndBus ∧ y.2.1 < 32 ∧ y.2.2 < 8) (h : lexLt x y) :
    functionAddressOf cfg.BaseAddress x.1 x.2.1 x.2.2 <
      functionAddressOf cfg.BaseAddress y.1 y.2.1 y.2.2 := by
  have hlt := functionOffset_lt_of_lexLt x y hx.2 hy.2 h
  rw [functionAddressOf_eq, functionAddressOf_eq]
  unfold functionOffset at hlt ⊢
  norm_num at hwrap hlt ⊢
  rw [Nat.mod_eq_of_lt (by omega), Nat.mod_eq_of_lt (by omega)]
  omega

/-- Without wrap-around inside the group, the addresses of the functions found, and of the
AHCI controllers among them, are strictly ascending. -/
theorem pairwise_address_foundFunctions (cs : ConfigSpace) (cfg : DeviceConfig)
    (hwrap : cfg.BaseAddress + cfg.EndBus * 2 ^ 20 ≤ 2 ^ 64) :
    (foundFunctions cs cfg).Pairwise (fun x y =>
      functionAddressOf cfg.BaseAddress x.1 x.2.1 x.2.2 <
        functionAddressOf cfg.BaseAddress y.1 y.2.1 y.2.2) ∧
    (((foundFunctions cs cfg).filter (fun x =>
        isAHCI (cs (functionAddressOf cfg.BaseAddress x.1 x.2.1 x.2.2)))).map
      (fun x => functionAddressOf cfg.BaseAddress x.1 x.2.1 x.2.2)).Pairwise
        (fun a b => a < b) := by
  have hpw : (foundFunctions cs cfg).Pairwise (fun x y =>
      functionAddressOf cfg.BaseAddress x.1 x.2.1 x.2.2 <
        functionAddressOf cfg.BaseAddress y.1 y.2.1 y.2.2) := by
    refine (pairwise_lexLt_foundFunctions cs cfg).imp_of_mem ?_
    intro x y hx hy hlt
    obtain ⟨-, h2, h3, h4, -⟩ := mem_foundFunctions cs cfg x hx
    obtain ⟨-, h2y, h3y, h4y, -⟩ := mem_foundFunctions cs cfg y hy
    exact functionAddressOf_lt_of_lexLt cfg hwrap x y ⟨h2, h3, h4⟩ ⟨h2y, h3y, h4y⟩ hlt
  refine ⟨hpw, ?_⟩
  rw [List.pairwise_map]
  exact List.Pairwise.sublist (List.filter_sublist _) hpw

/-- C10 (amended): the diagnostic lines `EnumeratePCI` prints and the AHCI drivers it
constructs come record by record and, within every device-group record, function by
function over the list of functions found, which is strictly ascending in (bus, device,
function) lexicographic order with bus in `[StartBus, EndBus)`, device in `0..31` and
function in `0..7`; every function of that list is logged, the drivers are those of its AHCI
members in the same order, each bound to its function's address `BaseAddress + offset`
(64-bit arithmetic), and the offsets are strictly ascending, so the first driver constructed
belongs to the matching function lowest in (bus, device, function) order.  When
`BaseAddress + (EndBus << 20)` does not exceed `2 ^ 64`, the addresses of the functions
found and of the drivers constructed are strictly ascending too, so that function is also
the lowest-addressed one. -/
theorem EnumeratePCI_ascending_order (cs : ConfigSpace) (mcfg : MCFGHeader) :
    (EnumeratePCI cs mcfg).filter Event.isKprintf =
      (List.range (mcfgEntries mcfg).toNat).flatMap (fun t =>
        (foundFunctions cs (mcfg.records t)).flatMap (fun x =>
          (EnumerateFunction cs (deviceAddressOf (mcfg.records t).BaseAddress x.1 x.2.1)
            x.2.2).filter Event.isKprintf)) ∧
    (EnumeratePCI cs mcfg).filter Event.isDriver =
      (List.range (mcfgEntries mcfg).toNat).flatMap (fun t =>
        ((foundFunctions cs (mcfg.records t)).filter (fun x =>
            isAHCI (cs (functionAddressOf (mcfg.records t).BaseAddress x.1 x.2.1 x.2.2)))).map
          (fun x => Event.newAHCIDriver
            (functionAddressOf (mcfg.records t).BaseAddress x.1 x.2.1 x.2.2))) ∧
    ∀ cfg : DeviceConfig,
      (foundFunctions cs cfg).Pairwise lexLt ∧
      (∀ x ∈ foundFunctions cs cfg,
        cfg.StartBus ≤ x.1 ∧ x.1 < cfg.EndBus ∧ x.2.1 < 32 ∧ x.2.2 < 8 ∧
        (EnumerateFunction cs (deviceAddressOf cfg.BaseAddress x.1 x.2.1) x.2.2).filter
          Event.isKprintf ≠ [] ∧
        functionAddressOf cfg.BaseAddress x.1 x.2.1 x.2.2 =
          (cfg.BaseAddress + functionOffset x) % 2 ^ 64) ∧
      (foundFunctions cs cfg).Pairwise (fun x y => functionOffset x < functionOffset y) ∧
      (cfg.BaseAddress + cfg.EndBus * 2 ^ 20 ≤ 2 ^ 64 →
        (foundFunctions cs cfg).Pairwise (fun x y =>
          functionAddressOf cfg.BaseAddress x.1 x.2.1 x.2.2 <
            functionAddressOf cfg.BaseAddress y.1 y.2.1 y.2.2) ∧
        (((foundFunctions cs cfg).filter (fun x =>
            isAHCI (cs (functionAddressOf cfg.BaseAddress x.1 x.2.1 x.2.2)))).map
          (fun x => functionAddressOf cfg.BaseAddress x.1 x.2.1 x.2.2)).Pairwise
            (fun a b => a < b)) := by
  refine ⟨filter_EnumeratePCI _ (fun _ _ => rfl) (fun _ => rfl) cs mcfg, ?_,
    fun cfg => ⟨?_, ?_, ?_, fun hwrap => pairwise_address_foundFunctions cs cfg hwrap⟩⟩
  · rw [filter_EnumeratePCI _ (fun _ _ => rfl) (fun _ => rfl) cs mcfg]
    refine List.flatMap_congr (fun t _ => ?_)
    rw [← flatMap_ite_singleton]
    refine List.flatMap_congr (fun x hx => ?_)
    exact filter_isDriver_found cs _ _ _ _ (mem_foundFunctions cs _ x hx).2.2.2.2
  · exact pairwise_lexLt_foundFunctions cs cfg
  · intro x hx
    obtain ⟨h1, h2, h3, h4, h5⟩ := mem_foundFunctions cs cfg x hx
    exact ⟨h1, h2, h3, h4, filter_isKprintf_found cs _ _ _ _ h5, functionAddressOf_eq _ _ _ _⟩
  · refine (pairwise_lexLt_foundFunctions cs cfg).imp_of_mem ?_
    intro x y hx hy hlt
    obtain ⟨-, -, h3, h4, -⟩ := mem_foundFunctions cs cfg x hx
    obtain ⟨-, -, h3y, h4y, -⟩ := mem_foundFunctions cs cfg y hy
    exact functionOffset_lt_of_lexLt x y ⟨h3, h4⟩ ⟨h3y, h4y⟩ hlt

/-! ## ACPI short-circuit -/

theorem filter_isWarning_rsdpLines (a : Nat) (r : RSDP2) :
    (rsdpLines a r).filter Event.isWarning = [] := rfl

theorem filter_isWarning_xsdtLines (a : Nat) (x : SDTHeader) :
    (xsdtLines a x).filter Event.isWarning = [] := rfl

theorem all_isKprintf_rsdpLines (a : Nat) (r : RSDP2) :
    ∀ e ∈ rsdpLines a r, e.isKprintf = true := by
  intro e he
  simp only [rsdpLines, List.mem_cons, List.mem_singleton, List.not_mem_nil, or_false] at he
  rcases he with rfl | rfl | rfl | rfl <;> rfl

theorem all_isKprintf_xsdtLines (a : Nat) (x : SDTHeader) :
    ∀ e ∈ xsdtLines a x, e.isKprintf = true := by
  intro e he
  simp only [xsdtLines, List.mem_cons, List.mem_singleton, List.not_mem_nil, or_false] at he
  rcases he with rfl | rfl | rfl <;> rfl

/-! ## Interrupt gate table -/

theorem add64_gate_inj (P v w : Nat) (hv : v < 256) (hw : w < 256) :
    add64 P (v * sizeofIDTDescEntry) = add64 P (w * sizeofIDTDescEntry) ↔ v = w := by
  unfold add64 sizeofIDTDescEntry
  constructor
  · intro h
    omega
  · intro h
    rw [h]

/-- What `PrepareInterrupts` leaves in the table: the six installed vectors get handler,
interrupt-gate attribute and selector `0x08`; every other vector keeps what the page
held. -/
theorem PrepareInterrupts_gateAt (p : Platform) (mem : Nat → IDTDescEntry) (v : Nat)
    (hv : v < 256) :
    gateAt (PrepareInterrupts p mem) v =
      if v = 0x20 then
        { mem (add64 p.idtPage (v * sizeofIDTDescEntry)) with
          offset := p.PITInt_Handler % 2 ^ 64, type_attr := 0x8E, selector := 0x08 }
      else if v = 0x2C then
        { mem (add64 p.idtPage (v * sizeofIDTDescEntry)) with
          offset := p.MouseInt_Handler % 2 ^ 64, type_attr := 0x8E, selector := 0x08 }
      else if v = 0x21 then
        { mem (add64 p.idtPage (v * sizeofIDTDescEntry)) with
          offset := p.KeyboardInt_Handler % 2 ^ 64, type_attr := 0x8E, selector := 0x08 }
      else if v = 0x0D then
        { mem (add64 p.idtPage (v * sizeofIDTDescEntry)) with
          offset := p.GPFault_Handler % 2 ^ 64, type_attr := 0x8E, selector := 0x08 }
      else if v = 0x08 then
        { mem (add64 p.idtPage (v * sizeofIDTDescEntry)) with
          offset := p.DoubleFault_Handler % 2 ^ 64, type_attr := 0x8E, selector := 0x08 }
      else if v = 0x0E then
        { mem (add64 p.idtPage (v * sizeofIDTDescEntry)) with
          offset := p.PageFault_Handler % 2 ^ 64, type_attr := 0x8E, selector := 0x08 }
      else mem (add64 p.idtPage (v * sizeofIDTDescEntry)) := by
  simp only [PrepareInterrupts, SetIDTGate, gateAt, Function.update_apply, IDT_TA_InterruptGate]
  have key : ∀ w, w < 256 →
      (add64 p.idtPage (v * sizeofIDTDescEntry) = add64 p.idtPage (w * sizeofIDTDescEntry) ↔
        v = w) := fun w hw => add64_gate_inj p.idtPage v w hv hw
  have cst : ∀ u w, u < 256 → w < 256 →
      (add64 p.idtPage (u * sizeofIDTDescEntry) = add64 p.idtPage (w * sizeofIDTDescEntry) ↔
        u = w) := fun u w hu hw => add64_gate_inj p.idtPage u w hu hw
  norm_num
  by_cases h20 : v = 32
  · subst h20; simp [cst]
  by_cases h2C : v = 44
  · subst h2C; simp [cst]
  by_cases h21 : v = 33
  · subst h21; simp [cst]
  by_cases h0D : v = 13
  · subst h0D; simp [cst]
  by_cases h08 : v = 8
  · subst h08; simp [cst]
  by_cases h0E : v = 14
  · subst h0E; simp [cst]
  simp [key, h20, h2C, h21, h0D, h08, h0E]

/-- The gates `PrepareInterrupts` installs: table register set to the requested page with
limit `0x0FFF`, and at each of the six vectors the handler's entry point, the
interrupt-gate attribute and selector `0x08`. -/
theorem PrepareInterrupts_installs (p : Platform) (mem : Nat → IDTDescEntry) :
    (PrepareInterrupts p mem).idtr = { Limit := 0x0FFF, Offset := p.idtPage } ∧
    (∀ v handler, (v, handler) ∈
        [(0x0E, p.PageFault_Handler), (0x08, p.DoubleFault_Handler),
         (0x0D, p.GPFault_Handler), (0x21, p.KeyboardInt_Handler),
         (0x2C, p.MouseInt_Handler), (0x20, p.PITInt_Handler)] →
      (gateAt (PrepareInterrupts p mem) v).offset = handler % 2 ^ 64 ∧
      (gateAt (PrepareInterrupts p mem) v).type_attr = 0x8E ∧
      (gateAt (PrepareInterrupts p mem) v).selector = 0x08 ∧
      (gateAt (PrepareInterrupts p mem) v).present = true) := by
  refine ⟨rfl, ?_⟩
  intro v handler hv
  simp only [List.mem_cons, Prod.mk.injEq, List.mem_singleton, List.not_mem_nil, or_false] at hv
  rcases hv with ⟨rfl, rfl⟩ | ⟨rfl, rfl⟩ | ⟨rfl, rfl⟩ | ⟨rfl, rfl⟩ | ⟨rfl, rfl⟩ | ⟨rfl, rfl⟩ <;>
    · rw [PrepareInterrupts_gateAt p mem _ (by norm_num)]
      simp [IDTDescEntry.present]

/-- C4 (failing input): on a page the allocator hands out with every bit set,
`PrepareInterrupts` leaves vector 0 exactly as it found it: the descriptor is not zero and
its present bit is set, although vector 0 is not one of the six installed vectors. -/
theorem PrepareInterrupts_keeps_stale_gate :
    gateAt (PrepareInterrupts samplePlatform (fun _ => staleEntry)) 0 = staleEntry ∧
    (gateAt (PrepareInterrupts samplePlatform (fun _ => staleEntry)) 0).present = true ∧
    gateAt (PrepareInterrupts samplePlatform (fun _ => staleEntry)) 0 ≠ IDTDescEntry.zero := by
  decide

/-! ## Identity mapping in `PrepareMemory` -/

theorem mapLoop_all_maps (fuel t bound : Nat) (l : List Event)
    (h : mapLoop fuel t bound = some l) : ∀ e ∈ l, ∃ a, e = Event.mapMemory a a := by
  induction fuel generalizing t l with
  | zero => simp [mapLoop] at h
  | succ fuel ih =>
    rw [mapLoop] at h
    by_cases ht : t < bound
    · rw [if_pos ht] at h
      cases hrec : mapLoop fuel (add64 t 0x1000) bound with
      | none => simp [hrec] at h
      | some rest =>
        simp only [hrec, Option.map_some', Option.some.injEq] at h
        subst h
        intro e he
        rcases List.mem_cons.mp he with rfl | he
        · exact ⟨t, rfl⟩
        · exact ih _ _ hrec e he
    · rw [if_neg ht] at h
      simp only [Option.some.injEq] at h
      subst h
      simp

/-- A loop whose bound leaves room for one more page below `2 ^ 64` exits, having requested
each address `t, t + 0x1000, ...` below the bound exactly once. -/
theorem mapLoop_count (fuel t bound : Nat) (hb : bound + 4096 ≤ 2 ^ 64)
    (hfuel : (bound - t + 4095) / 4096 + 1 ≤ fuel) :
    ∃ l, mapLoop fuel t bound = some l ∧
      ∀ a, l.count (Event.mapMemory a a) =
        if t ≤ a ∧ a < bound ∧ (a - t) % 4096 = 0 then 1 else 0 := by
  induction fuel generalizing t with
  | zero => omega
  | succ fuel ih =>
    rw [mapLoop]
    by_cases ht : t < bound
    · rw [if_pos ht]
      have hadd : add64 t 0x1000 = t + 4096 := by
        unfold add64
        norm_num at hb ⊢
        omega
      rw [hadd]
      obtain ⟨l, hl, hcount⟩ := ih (t + 4096) (by omega)
      refine ⟨Event.mapMemory t t :: l, by rw [hl]; rfl, fun a => ?_⟩
      rw [List.count_cons, hcount a]
      by_cases hat : a = t
      · subst hat
        simp [ht]
      · have hne : ¬ (Event.mapMemory t t == Event.mapMemory a a) = true := by
          simp
          omega
        rw [if_neg hne]
        by_cases hc : t + 4096 ≤ a ∧ a < bound ∧ (a - (t + 4096)) % 4096 = 0
        · rw [if_pos hc, if_pos (by omega)]
        · rw [if_neg hc, if_neg (by omega)]
    · rw [if_neg ht]
      refine ⟨[], rfl, fun a => ?_⟩
      rw [if_neg (by omega)]
      rfl

/-- The shape of what `PrepareMemory` returns. -/
theorem PrepareMemory_eq_some (fuel : Nat) (p : Platform) (b : BootInfo) (tr : List Event)
    (h : PrepareMemory fuel p b = some tr) :
    ∃ memoryMaps framebufferMaps,
      mapLoop fuel 0 (memorySizeOf p b) = some memoryMaps ∧
      mapLoop fuel (b.framebuffer.BaseAddress % 2 ^ 64)
        (add64 (b.framebuffer.BaseAddress % 2 ^ 64) (add64 b.framebuffer.BufferSize 0x1000))
          = some framebufferMaps ∧
      tr = [Event.newAllocator,
            Event.readEFIMemoryMap b.mMap b.mMapSize b.mMapDescSize,
            Event.lockPages p.kernelStart (add64 (sub64 p.kernelEnd p.kernelStart / 4096) 1),
            Event.requestPage,
            Event.memset p.pml4 0 0x1000,
            Event.newPageTableManager p.pml4]
           ++ memoryMaps
           ++ [Event.lockPages (b.framebuffer.BaseAddress % 2 ^ 64)
                (add64 (add64 b.framebuffer.BufferSize 0x1000 / 0x1000) 1)]
           ++ framebufferMaps
           ++ [Event.loadCR3 p.pml4] := by
  unfold PrepareMemory at h
  by_cases hd : b.mMapDescSize % 2 ^ 64 = 0
  · rw [if_pos hd] at h
    cases h
  · rw [if_neg hd] at h
    dsimp only at h
    split at h
    · rename_i memoryMaps framebufferMaps h1 h2
      simp only [Option.some.injEq] at h
      exact ⟨memoryMaps, framebufferMaps, h1, h2, h.symm⟩
    · cases h

/-- On a boot snapshot with a non-zero descriptor size whose memory size and framebuffer
end stay a page below `2 ^ 64`, `PrepareMemory` returns; every mapping
request it issues has virtual address equal to physical address; and for every address `a`
the number of requests `MapMemory(a, a)` is one for `a` page-aligned inside
`[0, GetMemorySize)` plus one for `a = fbBase + k * 0x1000` inside
`[fbBase, fbBase + BufferSize + 0x1000)`: exactly once for an address of one range only,
twice for an address of both. -/
theorem PrepareMemory_run (fuel : Nat) (p : Platform) (b : BootInfo)
    (hdesc : b.mMapDescSize % 2 ^ 64 ≠ 0)
    (hmem : memorySizeOf p b + 4096 ≤ 2 ^ 64)
    (hfb : b.framebuffer.BaseAddress + b.framebuffer.BufferSize + 0x2000 ≤ 2 ^ 64)
    (hfuel : memorySizeOf p b / 4096 + b.framebuffer.BufferSize / 4096 + 4 ≤ fuel) :
    ∃ tr, PrepareMemory fuel p b = some tr ∧
      (∀ v ph, Event.mapMemory v ph ∈ tr → v = ph) ∧
      ∀ a, tr.count (Event.mapMemory a a) =
        (if a < memorySizeOf p b ∧ a % 4096 = 0 then 1 else 0) +
        (if b.framebuffer.BaseAddress ≤ a ∧
            a < b.framebuffer.BaseAddress + b.framebuffer.BufferSize + 0x1000 ∧
            (a - b.framebuffer.BaseAddress) % 4096 = 0 then 1 else 0) := by
  have hbase : b.framebuffer.BaseAddress % 2 ^ 64 = b.framebuffer.BaseAddress :=
    Nat.mod_eq_of_lt (by omega)
  have hsize : add64 b.framebuffer.BufferSize 0x1000 = b.framebuffer.BufferSize + 0x1000 := by
    unfold add64
    exact Nat.mod_eq_of_lt (by omega)
  have hend : add64 b.framebuffer.BaseAddress (b.framebuffer.BufferSize + 0x1000) =
      b.framebuffer.BaseAddress + b.framebuffer.BufferSize + 0x1000 := by
    unfold add64
    rw [Nat.mod_eq_of_lt (by omega)]
    omega
  obtain ⟨l1, hl1, hc1⟩ := mapLoop_count fuel 0 (memorySizeOf p b) hmem (by omega)
  obtain ⟨l2, hl2, hc2⟩ := mapLoop_count fuel b.framebuffer.BaseAddress
    (b.framebuffer.BaseAddress + b.framebuffer.BufferSize + 0x1000) (by omega) (by omega)
  have hrun : PrepareMemory fuel p b = some
      ([Event.newAllocator,
        Event.readEFIMemoryMap b.mMap b.mMapSize b.mMapDescSize,
        Event.lockPages p.kernelStart (add64 (sub64 p.kernelEnd p.kernelStart / 4096) 1),
        Event.requestPage,
        Event.memset p.pml4 0 0x1000,
        Event.newPageTableManager p.pml4]
       ++ l1
       ++ [Event.lockPages b.framebuffer.BaseAddress
            (add64 ((b.framebuffer.BufferSize + 0x1000) / 0x1000) 1)]
       ++ l2
       ++ [Event.loadCR3 p.pml4]) := by
    unfold PrepareMemory
    rw [if_neg hdesc]
    simp only [hbase, hsize, hend, hl1, hl2]
  refine ⟨_, hrun, ?_, ?_⟩
  · intro v ph hmemb
    simp only [List.mem_append, List.mem_cons, List.mem_singleton, List.not_mem_nil, or_false,
      reduceCtorEq, false_or] at hmemb
    rcases hmemb with hmemb | hmemb
    · obtain ⟨a, ha⟩ := mapLoop_all_maps _ _ _ _ hl1 _ hmemb
      simp only [Event.mapMemory.injEq] at ha
      omega
    · obtain ⟨a, ha⟩ := mapLoop_all_maps _ _ _ _ hl2 _ hmemb
      simp only [Event.mapMemory.injEq] at ha
      omega
  · intro a
    simp only [List.count_append, List.count_cons, List.count_nil, hc1 a, hc2 a]
    simp only [beq_iff_eq, reduceCtorEq, if_false, Nat.zero_add, Nat.add_zero, Nat.zero_le,
      true_and, Nat.sub_zero]

/-- C5 (amended): for every boot snapshot with a non-zero descriptor size whose memory size
and framebuffer end stay a page below `2 ^ 64`, `PrepareMemory` returns; every mapping
request it issues has virtual address equal to physical address; and for every address `a`
the number of requests `MapMemory(a, a)` is one for `a` page-aligned inside
`[0, GetMemorySize)` plus one for `a = fbBase + k * 0x1000` inside
`[fbBase, fbBase + BufferSize + 0x1000)`: exactly once for an address of one range only,
twice for an address of both. -/
theorem PrepareMemory_mapping_requests (fuel : Nat) (p : Platform) (b : BootInfo)
    (hdesc : b.mMapDescSize % 2 ^ 64 ≠ 0)
    (hmem : memorySizeOf p b + 4096 ≤ 2 ^ 64)
    (hfb : b.framebuffer.BaseAddress + b.framebuffer.BufferSize + 0x2000 ≤ 2 ^ 64)
    (hfuel : memorySizeOf p b / 4096 + b.framebuffer.BufferSize / 4096 + 4 ≤ fuel) :
    ∃ tr, PrepareMemory fuel p b = some tr ∧
      (∀ v ph, Event.mapMemory v ph ∈ tr → v = ph) ∧
      ∀ a, tr.count (Event.mapMemory a a) =
        (if a < memorySizeOf p b ∧ a % 4096 = 0 then 1 else 0) +
        (if b.framebuffer.BaseAddress ≤ a ∧
            a < b.framebuffer.BaseAddress + b.framebuffer.BufferSize + 0x1000 ∧
            (a - b.framebuffer.BaseAddress) % 4096 = 0 then 1 else 0) :=
  PrepareMemory_run fuel p b hdesc hmem hfb hfuel

/-- Witness for `PrepareMemory_mapping_requests`: 16 KiB of memory and an 8 KiB
framebuffer at `0x80000000`. -/
theorem PrepareMemory_mapping_requests_witness :
    ∃ tr, PrepareMemory 10 samplePlatform sampleBoot = some tr ∧
      (∀ v ph, Event.mapMemory v ph ∈ tr → v = ph) ∧
      ∀ a, tr.count (Event.mapMemory a a) =
        (if a < memorySizeOf samplePlatform sampleBoot ∧ a % 4096 = 0 then 1 else 0) +
        (if sampleBoot.framebuffer.BaseAddress ≤ a ∧
            a < sampleBoot.framebuffer.BaseAddress + sampleBoot.framebuffer.BufferSize + 0x1000 ∧
            (a - sampleBoot.framebuffer.BaseAddress) % 4096 = 0 then 1 else 0) :=
  PrepareMemory_mapping_requests 10 samplePlatform sampleBoot (by decide) (by decide) (by decide)
    (by decide)

/-- C5 (counterexample): with a framebuffer at `0x2000` inside the 16 KiB the memory map
covers, `PrepareMemory` requests `MapMemory(0x2000, 0x2000)` twice: once in the memory-map
loop and once in the framebuffer loop. -/
theorem PrepareMemory_maps_overlap_twice :
    ∃ tr, PrepareMemory 10 samplePlatform overlapBoot = some tr ∧
      0x2000 < memorySizeOf samplePlatform overlapBoot ∧
      overlapBoot.framebuffer.BaseAddress = 0x2000 ∧
      tr.count (Event.mapMemory 0x2000 0x2000) = 2 :=
  ⟨_, rfl, by decide, rfl, by decide⟩

/-! ## Bring-up order -/

theorem filter_isStep_report (a : Nat) (hdr : PCIDeviceHeader) :
    (describeFunction a hdr ++ classSwitch a hdr).filter Event.isStep = [] := by
  unfold describeFunction classSwitch subclassSwitch progIFSwitch
  by_cases hc : hdr.Class = 0x01 <;> by_cases hs : hdr.Subclass = 0x06 <;>
    by_cases hp : hdr.ProgIF = 0x01 <;> simp [hc, hs, hp, Event.isStep]

theorem filter_isStep_EnumeratePCI (cs : ConfigSpace) (mcfg : MCFGHeader) :
    (EnumeratePCI cs mcfg).filter Event.isStep = [] := by
  rw [filter_EnumeratePCI Event.isStep (fun _ _ => rfl) (fun _ => rfl)]
  rw [List.flatMap_eq_nil_iff]
  intro t _
  rw [List.flatMap_eq_nil_iff]
  intro x _
  rw [filter_EnumerateFunction Event.isStep (fun _ _ => rfl) (fun _ => rfl),
    filter_isStep_report]
  simp

theorem filter_isStep_PrepareACPI (p : Platform) (bootInfo : Option BootInfo) :
    (PrepareACPI p bootInfo).filter Event.isStep = [] := by
  unfold PrepareACPI
  cases bootInfo with
  | none => rfl
  | some b =>
    simp only
    split
    · rfl
    · split
      · rfl
      · split
        · simp only [List.filter_append, filter_isStep_EnumeratePCI]
          rfl
        · rfl

theorem filter_isStep_mapLoop (fuel t bound : Nat) (l : List Event)
    (h : mapLoop fuel t bound = some l) : l.filter Event.isStep = [] := by
  rw [List.filter_eq_nil_iff]
  intro e he
  obtain ⟨a, rfl⟩ := mapLoop_all_maps fuel t bound l h e he
  simp [Event.isStep]

theorem filter_isStep_PrepareMemory (fuel : Nat) (p : Platform) (b : BootInfo) (tr : List Event)
    (h : PrepareMemory fuel p b = some tr) :
    tr.filter Event.isStep = [Event.memset p.pml4 0 0x1000, Event.loadCR3 p.pml4] := by
  obtain ⟨l1, l2, h1, h2, rfl⟩ := PrepareMemory_eq_some fuel p b tr h
  simp only [List.filter_append, filter_isStep_mapLoop _ _ _ _ h1, filter_isStep_mapLoop _ _ _ _ h2]
  rfl

theorem filter_isStep_PrepareInterrupts (p : Platform) (mem : Nat → IDTDescEntry) :
    (PrepareInterrupts p mem).trace.filter Event.isStep = [Event.lidt, Event.remapPIC] := rfl

/-- The shape of what `InitializeKernel` returns. -/
theorem InitializeKernel_eq_some (fuel : Nat) (p : Platform) (b : BootInfo) (tr : List Event)
    (h : InitializeKernel fuel p b = some tr) :
    ∃ prepareMemory, PrepareMemory fuel p b = some prepareMemory ∧
      tr = ([Event.cli, Event.newRenderer b.framebuffer.BaseAddress b.psf1_Font]
          ++ InitSerial
          ++ [Event.print "Kernel Initialization Starting...", Event.next,
              Event.print "[*] Loading GDT...", Event.next,
              Event.loadGDT,
              Event.print "[*] Setting up paging...", Event.next]
          ++ prepareMemory
          ++ [Event.memset b.framebuffer.BaseAddress 0 b.framebuffer.BufferSize,
              Event.print "[*] Initializing heap...", Event.next,
              Event.initializeHeap 0x0000100000000000 0x10,
              Event.print "[*] Setting up interrupts...", Event.next]
          ++ (PrepareInterrupts p p.memory).trace
          ++ [Event.print "[*] Initializing PS/2 mouse...", Event.next,
              Event.initPS2Mouse,
              Event.print "[*] Enumerating ACPI/PCI...", Event.next])
          ++ PrepareACPI p (some b)
          ++ finishBringUp := by
  unfold InitializeKernel at h
  split at h
  · cases h
  · rename_i prepareMemory hm
    simp only [Option.some.injEq] at h
    exact ⟨prepareMemory, hm, h.symm⟩

theorem count_eq_of_filter (tr : List Event) (q : Event → Bool) (e : Event) (he : q e = true) :
    tr.count e = (tr.filter q).count e :=
  (List.count_filter he).symm

/-- The bring-up steps of a returned `InitializeKernel` trace, and the place of
`PrepareACPI` in it. -/
theorem InitializeKernel_steps (fuel : Nat) (p : Platform) (b : BootInfo) (tr : List Event)
    (h : InitializeKernel fuel p b = some tr) :
    tr.filter Event.isStep =
        Event.cli :: InitSerial ++
          [Event.loadGDT,
           Event.memset p.pml4 0 0x1000,
           Event.loadCR3 p.pml4,
           Event.memset b.framebuffer.BaseAddress 0 b.framebuffer.BufferSize,
           Event.initializeHeap 0x0000100000000000 0x10,
           Event.lidt,
           Event.remapPIC,
           Event.initPS2Mouse,
           Event.outb PIC1_DATA 0b11111000,
           Event.outb PIC2_DATA 0b11101111,
           Event.sti] ∧
      (∃ pre, tr = pre ++ PrepareACPI p (some b) ++ finishBringUp ∧
        pre.filter Event.isStep =
          Event.cli :: InitSerial ++
            [Event.loadGDT,
             Event.memset p.pml4 0 0x1000,
             Event.loadCR3 p.pml4,
             Event.memset b.framebuffer.BaseAddress 0 b.framebuffer.BufferSize,
             Event.initializeHeap 0x0000100000000000 0x10,
             Event.lidt,
             Event.remapPIC,
             Event.initPS2Mouse]) := by
    obtain ⟨m, hm, rfl⟩ := InitializeKernel_eq_some fuel p b tr h
    have hsteps : ∀ q : List Event, q = ([Event.cli, Event.newRenderer b.framebuffer.BaseAddress b.psf1_Font]
          ++ InitSerial
          ++ [Event.print "Kernel Initialization Starting...", Event.next,
              Event.print "[*] Loading GDT...", Event.next,
              Event.loadGDT,
              Event.print "[*] Setting up paging...", Event.next]
          ++ m
          ++ [Event.memset b.framebuffer.BaseAddress 0 b.framebuffer.BufferSize,
              Event.print "[*] Initializing heap...", Event.next,
              Event.initializeHeap 0x0000100000000000 0x10,
              Event.print "[*] Setting up interrupts...", Event.next]
          ++ (PrepareInterrupts p p.memory).trace
          ++ [Event.print "[*] Initializing PS/2 mouse...", Event.next,
              Event.initPS2Mouse,
              Event.print "[*] Enumerating ACPI/PCI...", Event.next]) →
        q.filter Event.isStep =
          Event.cli :: InitSerial ++
            [Event.loadGDT,
             Event.memset p.pml4 0 0x1000,
             Event.loadCR3 p.pml4,
             Event.memset b.framebuffer.BaseAddress 0 b.framebuffer.BufferSize,
             Event.initializeHeap 0x0000100000000000 0x10,
             Event.lidt,
             Event.remapPIC,
             Event.initPS2Mouse] := by
      intro q hq
      subst hq
      simp only [List.filter_append, filter_isStep_PrepareMemory fuel p b m hm,
        filter_isStep_PrepareInterrupts]
      rfl
    have hall : (([Event.cli, Event.newRenderer b.framebuffer.BaseAddress b.psf1_Font]
          ++ InitSerial
          ++ [Event.print "Kernel Initialization Starting...", Event.next,
              Event.print "[*] Loading GDT...", Event.next,
              Event.loadGDT,
              Event.print "[*] Setting up paging...", Event.next]
          ++ m
          ++ [Event.memset b.framebuffer.BaseAddress 0 b.framebuffer.BufferSize,
              Event.print "[*] Initializing heap...", Event.next,
              Event.initializeHeap 0x0000100000000000 0x10,
              Event.print "[*] Setting up interrupts...", Event.next]
          ++ (PrepareInterrupts p p.memory).trace
          ++ [Event.print "[*] Initializing PS/2 mouse...", Event.next,
              Event.initPS2Mouse,
              Event.print "[*] Enumerating ACPI/PCI...", Event.next])
          ++ PrepareACPI p (some b) ++ finishBringUp).filter Event.isStep =
        Event.cli :: InitSerial ++
          [Event.loadGDT,
           Event.memset p.pml4 0 0x1000,
           Event.loadCR3 p.pml4,
           Event.memset b.framebuffer.BaseAddress 0 b.framebuffer.BufferSize,
           Event.initializeHeap 0x0000100000000000 0x10,
           Event.lidt,
           Event.remapPIC,
           Event.initPS2Mouse,
           Event.outb PIC1_DATA 0b11111000,
           Event.outb PIC2_DATA 0b11101111,
           Event.sti] := by
      rw [List.filter_append, List.filter_append, hsteps _ rfl, filter_isStep_PrepareACPI]
      rfl
    exact ⟨hall, _, rfl, hsteps _ rfl⟩

theorem count_steps (p : Platform) (b : BootInfo) (l : List Event)
    (h : l = Event.cli :: InitSerial ++
          [Event.loadGDT,
           Event.memset p.pml4 0 0x1000,
           Event.loadCR3 p.pml4,
           Event.memset b.framebuffer.BaseAddress 0 b.framebuffer.BufferSize,
           Event.initializeHeap 0x0000100000000000 0x10,
           Event.lidt,
           Event.remapPIC,
           Event.initPS2Mouse,
           Event.outb PIC1_DATA 0b11111000,
           Event.outb PIC2_DATA 0b11101111,
           Event.sti]) :
    l.count Event.cli = 1 ∧
    l.count Event.loadGDT = 1 ∧
    l.count (Event.loadCR3 p.pml4) = 1 ∧
    l.count (Event.initializeHeap 0x0000100000000000 0x10) = 1 ∧
    l.count Event.lidt = 1 ∧
    l.count Event.remapPIC = 1 ∧
    l.count Event.initPS2Mouse = 1 ∧
    l.count Event.sti = 1 := by
  subst h
  simp only [InitSerial, List.cons_append, List.nil_append, List.count_cons, List.count_nil,
    beq_iff_eq, reduceCtorEq, if_false, if_true, Nat.zero_add, Nat.add_zero, and_self]

theorem filter_report_eq_nil (q : Event → Bool) (hr : ∀ a, q (Event.readHeader a) = false)
    (hk : ∀ f a, q (Event.kprintf f a) = false) (hd : ∀ a, q (Event.newAHCIDriver a) = false)
    (a : Nat) (hdr : PCIDeviceHeader) :
    (describeFunction a hdr ++ classSwitch a hdr).filter q = [] := by
  unfold describeFunction classSwitch subclassSwitch progIFSwitch
  by_cases hc : hdr.Class = 0x01 <;> by_cases hs : hdr.Subclass = 0x06 <;>
    by_cases hp : hdr.ProgIF = 0x01 <;> simp [hc, hs, hp, hr, hk, hd]

theorem filter_EnumeratePCI_eq_nil (q : Event → Bool)
    (hm : ∀ v p, q (Event.mapMemory v p) = false) (hr : ∀ a, q (Event.readHeader a) = false)
    (hk : ∀ f a, q (Event.kprintf f a) = false) (hd : ∀ a, q (Event.newAHCIDriver a) = false)
    (cs : ConfigSpace) (mcfg : MCFGHeader) :
    (EnumeratePCI cs mcfg).filter q = [] := by
  rw [filter_EnumeratePCI q hm hr]
  rw [List.flatMap_eq_nil_iff]
  intro t _
  rw [List.flatMap_eq_nil_iff]
  intro x _
  rw [filter_EnumerateFunction q hm hr, filter_report_eq_nil q hr hk hd]
  simp

theorem filter_PrepareACPI_eq_nil (q : Event → Bool)
    (hm : ∀ v p, q (Event.mapMemory v p) = false) (hr : ∀ a, q (Event.readHeader a) = false)
    (hk : ∀ f a, q (Event.kprintf f a) = false) (hd : ∀ a, q (Event.newAHCIDriver a) = false)
    (p : Platform) (bootInfo : Option BootInfo) :
    (PrepareACPI p bootInfo).filter q = [] := by
  unfold PrepareACPI
  cases bootInfo with
  | none => simp [hk]
  | some b =>
    simp only
    split
    · simp [hk]
    · split
      · simp [rsdpLines, hk]
      · split
        · simp only [List.filter_append, filter_EnumeratePCI_eq_nil q hm hr hk hd]
          simp [rsdpLines, xsdtLines, hk]
        · simp [rsdpLines, xsdtLines, hk]

/-- Every event of `PrepareACPI` is a `kernel_printf` line, a mapping request, a header read
or a driver construction. -/
theorem all_isDiscovery_PrepareACPI (p : Platform) (bootInfo : Option BootInfo) :
    ∀ e ∈ PrepareACPI p bootInfo, e.isDiscovery = true := by
  have h := filter_PrepareACPI_eq_nil (fun e => !e.isDiscovery) (fun _ _ => rfl) (fun _ => rfl)
    (fun _ _ => rfl) (fun _ => rfl) p bootInfo
  rw [List.filter_eq_nil_iff] at h
  intro e he
  have := h e he
  simpa using this

/-- With a memory-descriptor size of zero the division in `PrepareMemory` traps:
`InitializeKernel` never returns. -/
theorem InitializeKernel_zero_stride (fuel : Nat) (p : Platform) (b : BootInfo)
    (h : b.mMapDescSize % 2 ^ 64 = 0) : InitializeKernel fuel p b = none := by
  unfold InitializeKernel PrepareMemory
  rw [if_pos h]

/-- C6 (amended): for every boot snapshot with a non-zero memory-descriptor size whose
memory size and framebuffer end stay a page below `2 ^ 64`, `InitializeKernel` returns
(given the fuel for the two mapping loops) and its trace is, in this order: disable
interrupts, renderer construction, the seven serial-port writes, GDT load, `PrepareMemory`
(allocator set-up, kernel frames reserved, top-level table requested, cleared and handed to
the page-table manager, the mapping requests of the memory map, framebuffer frames reserved,
the mapping requests of the framebuffer, then activation of the table), framebuffer
zeroing, heap initialisation, `PrepareInterrupts` (table page requested, the six gate
writes, which leave handler, interrupt-gate attribute and selector `0x08` at the six
vectors, table load, PIC remap), input device initialisation, `PrepareACPI` (which emits
only `kernel_printf` lines, mapping requests, header reads and driver constructions), the
two final PIC mask writes, enable interrupts, with the progress lines in between; each
bring-up step occurs exactly once. -/
theorem InitializeKernel_order (fuel : Nat) (p : Platform) (b : BootInfo)
    (hdesc : b.mMapDescSize % 2 ^ 64 ≠ 0)
    (hmem : memorySizeOf p b + 4096 ≤ 2 ^ 64)
    (hfb : b.framebuffer.BaseAddress + b.framebuffer.BufferSize + 0x2000 ≤ 2 ^ 64)
    (hfuel : memorySizeOf p b / 4096 + b.framebuffer.BufferSize / 4096 + 4 ≤ fuel) :
    ∃ tr memoryMaps framebufferMaps,
      InitializeKernel fuel p b = some tr ∧
      mapLoop fuel 0 (memorySizeOf p b) = some memoryMaps ∧
      mapLoop fuel (b.framebuffer.BaseAddress % 2 ^ 64)
        (add64 (b.framebuffer.BaseAddress % 2 ^ 64) (add64 b.framebuffer.BufferSize 0x1000))
          = some framebufferMaps ∧
      (∀ e ∈ memoryMaps ++ framebufferMaps, ∃ a, e = Event.mapMemory a a) ∧
      tr =
        [Event.cli,
         Event.newRenderer b.framebuffer.BaseAddress b.psf1_Font,
         Event.outb 0x3F9 0x00, Event.outb 0x3FB 0x80, Event.outb 0x3F8 0x01,
         Event.outb 0x3F9 0x00, Event.outb 0x3FB 0x03, Event.outb 0x3FA 0xC7,
         Event.outb 0x3FC 0x0B,
         Event.print "Kernel Initialization Starting...", Event.next,
         Event.print "[*] Loading GDT...", Event.next,
         Event.loadGDT,
         Event.print "[*] Setting up paging...", Event.next,
         Event.newAllocator,
         Event.readEFIMemoryMap b.mMap b.mMapSize b.mMapDescSize,
         Event.lockPages p.kernelStart (add64 (sub64 p.kernelEnd p.kernelStart / 4096) 1),
         Event.requestPage,
         Event.memset p.pml4 0 0x1000,
         Event.newPageTableManager p.pml4]
        ++ memoryMaps
        ++ [Event.lockPages (b.framebuffer.BaseAddress % 2 ^ 64)
              (add64 (add64 b.framebuffer.BufferSize 0x1000 / 0x1000) 1)]
        ++ framebufferMaps
        ++ [Event.loadCR3 p.pml4,
            Event.memset b.framebuffer.BaseAddress 0 b.framebuffer.BufferSize,
            Event.print "[*] Initializing heap...", Event.next,
            Event.initializeHeap 0x0000100000000000 0x10,
            Event.print "[*] Setting up interrupts...", Event.next,
            Event.requestPage,
            Event.setIDTGate p.PageFault_Handler 0xE 0x8E 0x08,
            Event.setIDTGate p.DoubleFault_Handler 0x8 0x8E 0x08,
            Event.setIDTGate p.GPFault_Handler 0xD 0x8E 0x08,
            Event.setIDTGate p.KeyboardInt_Handler 0x21 0x8E 0x08,
            Event.setIDTGate p.MouseInt_Handler 0x2C 0x8E 0x08,
            Event.setIDTGate p.PITInt_Handler 0x20 0x8E 0x08,
            Event.lidt,
            Event.remapPIC,
            Event.print "[*] Initializing PS/2 mouse...", Event.next,
            Event.initPS2Mouse,
            Event.print "[*] Enumerating ACPI/PCI...", Event.next]
        ++ PrepareACPI p (some b)
        ++ [Event.print "[*] Configuring PIC...", Event.next,
            Event.outb 0x21 0b11111000,
            Event.outb 0xA1 0b11101111,
            Event.print "[*] Enabling interrupts...", Event.next,
            Event.sti,
            Event.print "[*] Kernel initialization complete!", Event.next] ∧
      (∀ e ∈ PrepareACPI p (some b), e.isDiscovery = true) ∧
      tr.filter Event.isStep =
        [Event.cli,
         Event.outb 0x3F9 0x00, Event.outb 0x3FB 0x80, Event.outb 0x3F8 0x01,
         Event.outb 0x3F9 0x00, Event.outb 0x3FB 0x03, Event.outb 0x3FA 0xC7,
         Event.outb 0x3FC 0x0B,
         Event.loadGDT,
         Event.memset p.pml4 0 0x1000,
         Event.loadCR3 p.pml4,
         Event.memset b.framebuffer.BaseAddress 0 b.framebuffer.BufferSize,
         Event.initializeHeap 0x0000100000000000 0x10,
         Event.lidt,
         Event.remapPIC,
         Event.initPS2Mouse,
         Event.outb 0x21 0b11111000,
         Event.outb 0xA1 0b11101111,
         Event.sti] ∧
      tr.count Event.cli = 1 ∧
      tr.count Event.loadGDT = 1 ∧
      tr.count (Event.loadCR3 p.pml4) = 1 ∧
      tr.count (Event.initializeHeap 0x0000100000000000 0x10) = 1 ∧
      tr.count Event.lidt = 1 ∧
      tr.count Event.remapPIC = 1 ∧
      tr.count Event.initPS2Mouse = 1 ∧
      tr.count Event.sti = 1 ∧
      (PrepareInterrupts p p.memory).idtr = { Limit := 0x0FFF, Offset := p.idtPage } ∧
      (∀ v handler, (v, handler) ∈
          [(0x0E, p.PageFault_Handler), (0x08, p.DoubleFault_Handler),
           (0x0D, p.GPFault_Handler), (0x21, p.KeyboardInt_Handler),
           (0x2C, p.MouseInt_Handler), (0x20, p.PITInt_Handler)] →
        (gateAt (PrepareInterrupts p p.memory) v).offset = handler % 2 ^ 64 ∧
        (gateAt (PrepareInterrupts p p.memory) v).type_attr = 0x8E ∧
        (gateAt (PrepareInterrupts p p.memory) v).selector = 0x08 ∧
        (gateAt (PrepareInterrupts p p.memory) v).present = true) := by
  obtain ⟨m, hm, -, -⟩ := PrepareMemory_run fuel p b hdesc hmem hfb hfuel
  obtain ⟨l1, l2, h1, h2, rfl⟩ := PrepareMemory_eq_some fuel p b m hm
  obtain ⟨tr, hIK⟩ : ∃ tr, InitializeKernel fuel p b = some tr := by
    unfold InitializeKernel
    rw [hm]
    exact ⟨_, rfl⟩
  obtain ⟨m2, hm2, htr⟩ := InitializeKernel_eq_some fuel p b tr hIK
  rw [hm] at hm2
  simp only [Option.some.injEq] at hm2
  subst hm2
  obtain ⟨hall, -⟩ := InitializeKernel_steps fuel p b _ hIK
  obtain ⟨c1, c2, c3, c4, c5, c6, c7, c8⟩ := count_steps p b _ hall
  refine ⟨_, l1, l2, hIK, h1, h2, ?_, ?_, all_isDiscovery_PrepareACPI p (some b), hall,
    ?_, ?_, ?_, ?_, ?_, ?_, ?_, ?_, PrepareInterrupts_installs p p.memory⟩
  · intro e he
    rcases List.mem_append.mp he with he | he
    · exact mapLoop_all_maps _ _ _ _ h1 e he
    · exact mapLoop_all_maps _ _ _ _ h2 e he
  · rw [htr]
    simp only [InitSerial, finishBringUp, PrepareInterrupts, SetIDTGate, IDT_TA_InterruptGate,
      PIC1_DATA, PIC2_DATA, List.append_assoc, List.cons_append, List.nil_append]
  · rw [count_eq_of_filter _ Event.isStep Event.cli rfl]; exact c1
  · rw [count_eq_of_filter _ Event.isStep Event.loadGDT rfl]; exact c2
  · rw [count_eq_of_filter _ Event.isStep (Event.loadCR3 p.pml4) rfl]; exact c3
  · rw [count_eq_of_filter _ Event.isStep (Event.initializeHeap 0x0000100000000000 0x10) rfl]
    exact c4
  · rw [count_eq_of_filter _ Event.isStep Event.lidt rfl]; exact c5
  · rw [count_eq_of_filter _ Event.isStep Event.remapPIC rfl]; exact c6
  · rw [count_eq_of_filter _ Event.isStep Event.initPS2Mouse rfl]; exact c7
  · rw [count_eq_of_filter _ Event.isStep Event.sti rfl]; exact c8

/-- Witness for `InitializeKernel_order`: the sample machine with an AHCI controller
returns with fuel 10; its steps are in the fixed order, each once. -/
theorem InitializeKernel_order_witness :
    ∃ tr, InitializeKernel 10 ahciPlatform sampleBoot = some tr ∧
      tr.filter Event.isStep =
        [Event.cli,
         Event.outb 0x3F9 0x00, Event.outb 0x3FB 0x80, Event.outb 0x3F8 0x01,
         Event.outb 0x3F9 0x00, Event.outb 0x3FB 0x03, Event.outb 0x3FA 0xC7,
         Event.outb 0x3FC 0x0B,
         Event.loadGDT,
         Event.memset 0x200000 0 0x1000,
         Event.loadCR3 0x200000,
         Event.memset 0x80000000 0 0x2000,
         Event.initializeHeap 0x0000100000000000 0x10,
         Event.lidt,
         Event.remapPIC,
         Event.initPS2Mouse,
         Event.outb 0x21 0b11111000,
         Event.outb 0xA1 0b11101111,
         Event.sti] ∧
      tr.count Event.lidt = 1 ∧
      tr.count Event.sti = 1 := by
  obtain ⟨tr, _, _, h, -, -, -, -, -, hsteps, -, -, -, -, hlidt, -, -, hsti, -⟩ :=
    InitializeKernel_order 10 ahciPlatform sampleBoot (by decide) (by decide) (by decide)
      (by decide)
  exact ⟨tr, h, hsteps, hlidt, hsti⟩

/-- C6 (counterexample): a boot snapshot whose memory-descriptor size is zero makes
`PrepareMemory` divide by zero; `InitializeKernel` never returns, so heap initialisation,
gate installation and the enabling of interrupts do not occur at all. -/
theorem InitializeKernel_zero_stride_traps :
    zeroStrideBoot.mMapDescSize = 0 ∧
    (∀ fuel, PrepareMemory fuel samplePlatform zeroStrideBoot = none) ∧
    (∀ fuel, InitializeKernel fuel samplePlatform zeroStrideBoot = none) :=
  ⟨rfl, fun _ => rfl, fun fuel => InitializeKernel_zero_stride fuel _ _ rfl⟩

/-! ## ACPI short-circuit: the theorem -/

theorem PrepareACPI_null_rsdp (p : Platform) (b : BootInfo) (h : b.rsdp = 0) :
    PrepareACPI p (some b) =
      [Event.kprintf "  [ACPI] WARNING: RSDP is NULL, skipping ACPI initialization\n" []] := by
  unfold PrepareACPI
  simp only [h, if_true]

theorem PrepareACPI_null_xsdt (p : Platform) (b : BootInfo) (h : b.rsdp ≠ 0)
    (hx : (p.rsdpAt b.rsdp).XSDTAddress = 0) :
    PrepareACPI p (some b) =
      rsdpLines b.rsdp (p.rsdpAt b.rsdp) ++
        [Event.kprintf "  [ACPI] WARNING: XSDT is NULL at 0x%p, skipping PCI enumeration\n"
          [Arg.num 0]] := by
  unfold PrepareACPI
  simp only [h, hx, if_true, if_false]

theorem PrepareACPI_no_mcfg (p : Platform) (b : BootInfo) (h : b.rsdp ≠ 0)
    (hx : (p.rsdpAt b.rsdp).XSDTAddress ≠ 0)
    (hm : p.findTable (p.rsdpAt b.rsdp).XSDTAddress "MCFG" = 0) :
    PrepareACPI p (some b) =
      rsdpLines b.rsdp (p.rsdpAt b.rsdp) ++
        (xsdtLines (p.rsdpAt b.rsdp).XSDTAddress (p.sdtAt (p.rsdpAt b.rsdp).XSDTAddress) ++
          [Event.kprintf "  [ACPI] WARNING: MCFG table not found\n" []]) := by
  unfold PrepareACPI
  simp only [h, hx, hm, if_false, ne_eq, not_true_eq_false]

/-- What `PrepareACPI` does when it stops before enumeration, and where its trace sits in a
returned `InitializeKernel` trace. -/
theorem PrepareACPI_only_prints (p : Platform) (b : BootInfo)
    (h : b.rsdp = 0 ∨ (p.rsdpAt b.rsdp).XSDTAddress = 0 ∨
         p.findTable (p.rsdpAt b.rsdp).XSDTAddress "MCFG" = 0) :
    (∀ e ∈ PrepareACPI p (some b), e.isKprintf = true) ∧
    Event.kprintf "    - Starting PCI enumeration...\n" [] ∉ PrepareACPI p (some b) ∧
    (∀ cs : ConfigSpace, PrepareACPI { p with config := cs } (some b) = PrepareACPI p (some b)) ∧
    ((PrepareACPI p (some b)).filter Event.isWarning).length = 1 ∧
    (b.rsdp = 0 → PrepareACPI p (some b) =
      [Event.kprintf "  [ACPI] WARNING: RSDP is NULL, skipping ACPI initialization\n" []]) ∧
    (∀ fuel tr, InitializeKernel fuel p b = some tr →
      ∃ pre, tr = pre ++ PrepareACPI p (some b) ++
        [Event.print "[*] Configuring PIC...", Event.next,
         Event.outb PIC1_DATA 0b11111000,
         Event.outb PIC2_DATA 0b11101111,
         Event.print "[*] Enabling interrupts...", Event.next,
         Event.sti,
         Event.print "[*] Kernel initialization complete!", Event.next]) := by
  have hlast : ∀ fuel tr, InitializeKernel fuel p b = some tr →
      ∃ pre, tr = pre ++ PrepareACPI p (some b) ++
        [Event.print "[*] Configuring PIC...", Event.next,
         Event.outb PIC1_DATA 0b11111000,
         Event.outb PIC2_DATA 0b11101111,
         Event.print "[*] Enabling interrupts...", Event.next,
         Event.sti,
         Event.print "[*] Kernel initialization complete!", Event.next] := by
    intro fuel tr htr
    obtain ⟨m, -, rfl⟩ := InitializeKernel_eq_some fuel p b tr htr
    exact ⟨_, rfl⟩
  by_cases h0 : b.rsdp = 0
  · have e := PrepareACPI_null_rsdp p b h0
    refine ⟨?_, ?_, ?_, ?_, fun _ => e, hlast⟩
    · rw [e]
      intro x hx
      rw [List.mem_singleton] at hx
      subst hx
      rfl
    · rw [e]
      decide
    · intro cs
      exact (PrepareACPI_null_rsdp { p with config := cs } b h0).trans e.symm
    · rw [e]
      rfl
  · by_cases hx : (p.rsdpAt b.rsdp).XSDTAddress = 0
    · have e := PrepareACPI_null_xsdt p b h0 hx
      refine ⟨?_, ?_, ?_, ?_, fun h' => absurd h' h0, hlast⟩
      · rw [e]
        intro x hmem
        rcases List.mem_append.mp hmem with hmem | hmem
        · exact all_isKprintf_rsdpLines _ _ x hmem
        · rw [List.mem_singleton] at hmem
          subst hmem
          rfl
      · rw [e]
        simp [rsdpLines]
      · intro cs
        exact (PrepareACPI_null_xsdt { p with config := cs } b h0 hx).trans e.symm
      · rw [e, List.filter_append, filter_isWarning_rsdpLines]
        rfl
    · have hm : p.findTable (p.rsdpAt b.rsdp).XSDTAddress "MCFG" = 0 := by
        rcases h with h | h | h
        · exact absurd h h0
        · exact absurd h hx
        · exact h
      have e := PrepareACPI_no_mcfg p b h0 hx hm
      refine ⟨?_, ?_, ?_, ?_, fun h' => absurd h' h0, hlast⟩
      · rw [e]
        intro x hmem
        rcases List.mem_append.mp hmem with hmem | hmem
        · exact all_isKprintf_rsdpLines _ _ x hmem
        · rcases List.mem_append.mp hmem with hmem | hmem
          · exact all_isKprintf_xsdtLines _ _ x hmem
          · rw [List.mem_singleton] at hmem
            subst hmem
            rfl
      · rw [e]
        simp [rsdpLines, xsdtLines]
      · intro cs
        exact (PrepareACPI_no_mcfg { p with config := cs } b h0 hx hm).trans e.symm
      · rw [e, List.filter_append, List.filter_append, filter_isWarning_rsdpLines,
          filter_isWarning_xsdtLines]
        rfl

/-- C7 (amended): when the ACPI root pointer is null, or the extended-system-table address
is null, or `FindTable` finds no `MCFG` table, `PrepareACPI` only prints: every event is a
`kernel_printf` line, so there is no mapping request, header read or driver construction;
the line that precedes the call of `EnumeratePCI` is not printed; the trace does not depend
on the configuration space; exactly one line is a warning; for a null root pointer the
warning is the whole trace; a returning `InitializeKernel` continues after it with the
final PIC mask writes and the enabling of interrupts; and `InitializeKernel` does return,
with that continuation, for every such snapshot with a non-zero memory-descriptor size
whose memory size and framebuffer end stay a page below `2 ^ 64`. -/
theorem PrepareACPI_short_circuit (p : Platform) (b : BootInfo)
    (h : b.rsdp = 0 ∨ (p.rsdpAt b.rsdp).XSDTAddress = 0 ∨
         p.findTable (p.rsdpAt b.rsdp).XSDTAddress "MCFG" = 0) :
    (∀ e ∈ PrepareACPI p (some b), e.isKprintf = true) ∧
    Event.kprintf "    - Starting PCI enumeration...\n" [] ∉ PrepareACPI p (some b) ∧
    (∀ cs : ConfigSpace, PrepareACPI { p with config := cs } (some b) = PrepareACPI p (some b)) ∧
    ((PrepareACPI p (some b)).filter Event.isWarning).length = 1 ∧
    (b.rsdp = 0 → PrepareACPI p (some b) =
      [Event.kprintf "  [ACPI] WARNING: RSDP is NULL, skipping ACPI initialization\n" []]) ∧
    (∀ fuel tr, InitializeKernel fuel p b = some tr →
      ∃ pre, tr = pre ++ PrepareACPI p (some b) ++
        [Event.print "[*] Configuring PIC...", Event.next,
         Event.outb PIC1_DATA 0b11111000,
         Event.outb PIC2_DATA 0b11101111,
         Event.print "[*] Enabling interrupts...", Event.next,
         Event.sti,
         Event.print "[*] Kernel initialization complete!", Event.next]) ∧
    (b.mMapDescSize % 2 ^ 64 ≠ 0 →
      memorySizeOf p b + 4096 ≤ 2 ^ 64 →
      b.framebuffer.BaseAddress + b.framebuffer.BufferSize + 0x2000 ≤ 2 ^ 64 →
      ∀ fuel, memorySizeOf p b / 4096 + b.framebuffer.BufferSize / 4096 + 4 ≤ fuel →
        ∃ tr pre, InitializeKernel fuel p b = some tr ∧
          tr = pre ++ PrepareACPI p (some b) ++
            [Event.print "[*] Configuring PIC...", Event.next,
             Event.outb PIC1_DATA 0b11111000,
             Event.outb PIC2_DATA 0b11101111,
             Event.print "[*] Enabling interrupts...", Event.next,
             Event.sti,
             Event.print "[*] Kernel initialization complete!", Event.next]) := by
  obtain ⟨h1, h2, h3, h4, h5, h6⟩ := PrepareACPI_only_prints p b h
  refine ⟨h1, h2, h3, h4, h5, h6, ?_⟩
  intro hdesc hmem hfb fuel hfuel
  obtain ⟨m, hm, -, -⟩ := PrepareMemory_run fuel p b hdesc hmem hfb hfuel
  obtain ⟨tr, hIK⟩ : ∃ tr, InitializeKernel fuel p b = some tr := by
    unfold InitializeKernel
    rw [hm]
    exact ⟨_, rfl⟩
  obtain ⟨pre, hpre⟩ := h6 fuel tr hIK
  exact ⟨tr, pre, hIK, hpre⟩

/-- Witness for `PrepareACPI_short_circuit`: a snapshot without root pointer, on which
`InitializeKernel` returns with fuel 10 and ends with the warning, the PIC mask writes and
the enabling of interrupts; and a snapshot whose extended table holds no `MCFG` table. -/
theorem PrepareACPI_short_circuit_witness :
    ((PrepareACPI samplePlatform (some overlapBoot)).filter Event.isWarning).length = 1 ∧
    PrepareACPI samplePlatform (some overlapBoot) =
      [Event.kprintf "  [ACPI] WARNING: RSDP is NULL, skipping ACPI initialization\n" []] ∧
    ((PrepareACPI samplePlatform (some sampleBoot)).filter Event.isWarning).length = 1 ∧
    (∀ e ∈ PrepareACPI samplePlatform (some sampleBoot), e.isKprintf = true) ∧
    (∃ tr pre, InitializeKernel 10 samplePlatform overlapBoot = some tr ∧
      tr = pre ++
        [Event.kprintf "  [ACPI] WARNING: RSDP is NULL, skipping ACPI initialization\n" []] ++
        [Event.print "[*] Configuring PIC...", Event.next,
         Event.outb 0x21 0b11111000,
         Event.outb 0xA1 0b11101111,
         Event.print "[*] Enabling interrupts...", Event.next,
         Event.sti,
         Event.print "[*] Kernel initialization complete!", Event.next]) ∧
    (∃ tr pre, InitializeKernel 10 samplePlatform sampleBoot = some tr ∧
      tr = pre ++ PrepareACPI samplePlatform (some sampleBoot) ++
        [Event.print "[*] Configuring PIC...", Event.next,
         Event.outb 0x21 0b11111000,
         Event.outb 0xA1 0b11101111,
         Event.print "[*] Enabling interrupts...", Event.next,
         Event.sti,
         Event.print "[*] Kernel initialization complete!", Event.next]) :=
  ⟨(PrepareACPI_short_circuit samplePlatform overlapBoot (Or.inl rfl)).2.2.2.1,
   (PrepareACPI_short_circuit samplePlatform overlapBoot (Or.inl rfl)).2.2.2.2.1 rfl,
   (PrepareACPI_short_circuit samplePlatform sampleBoot (Or.inr (Or.inr rfl))).2.2.2.1,
   (PrepareACPI_short_circuit samplePlatform sampleBoot (Or.inr (Or.inr rfl))).1,
   (PrepareACPI_short_circuit samplePlatform overlapBoot (Or.inl rfl)).2.2.2.2.2.2
     (by decide) (by decide) (by decide) 10 (by decide),
   (PrepareACPI_short_circuit samplePlatform sampleBoot (Or.inr (Or.inr rfl))).2.2.2.2.2.2
     (by decide) (by decide) (by decide) 10 (by decide)⟩

/-- C7 (counterexample): a boot snapshot with a null ACPI root pointer and a
memory-descriptor size of zero: `PrepareACPI` on its own would print its one warning, but
`InitializeKernel` traps in `PrepareMemory` before reaching it and never performs the final
PIC mask writes or enables interrupts. -/
theorem InitializeKernel_null_root_zero_stride_traps :
    nullRootZeroStrideBoot.rsdp = 0 ∧
    nullRootZeroStrideBoot.mMapDescSize = 0 ∧
    PrepareACPI samplePlatform (some nullRootZeroStrideBoot) =
      [Event.kprintf "  [ACPI] WARNING: RSDP is NULL, skipping ACPI initialization\n" []] ∧
    (∀ fuel, InitializeKernel fuel samplePlatform nullRootZeroStrideBoot = none) :=
  ⟨rfl, rfl, rfl, fun fuel => InitializeKernel_zero_stride fuel _ _ rfl⟩

/-- Witness for `EnumeratePCI_ascending_order`: with AHCI controllers at functions (0,0,0),
(0,0,2) and (0,3,0) of one group based at `0xE0000000`, the drivers are constructed in that
order, and, the group ending below `2 ^ 64`, at strictly ascending addresses. -/
theorem EnumeratePCI_ascending_order_witness :
    foundFunctions threeAhciSpace oneBusConfig = [(0, 0, 0), (0, 0, 2), (0, 3, 0)] ∧
    (EnumeratePCI threeAhciSpace oneRecordTable).filter Event.isDriver =
      [Event.newAHCIDriver 0xE0000000, Event.newAHCIDriver 0xE0002000,
       Event.newAHCIDriver 0xE0018000] ∧
    oneBusConfig.BaseAddress + oneBusConfig.EndBus * 2 ^ 20 ≤ 2 ^ 64 ∧
    (((foundFunctions threeAhciSpace oneBusConfig).filter (fun x =>
        isAHCI (threeAhciSpace (functionAddressOf oneBusConfig.BaseAddress x.1 x.2.1 x.2.2)))).map
      (fun x => functionAddressOf oneBusConfig.BaseAddress x.1 x.2.1 x.2.2)).Pairwise
        (fun a b => a < b) :=
  ⟨by decide, (EnumeratePCI_ascending_order threeAhciSpace oneRecordTable).2.1.trans (by decide),
   by decide,
   (((EnumeratePCI_ascending_order threeAhciSpace oneRecordTable).2.2 oneBusConfig).2.2.2
      (by decide)).2⟩

/-- C10 (counterexample): in a device group based at `0xFFFFFFFFFFFFF000`, function (0,0,1)
lies at `BaseAddress + (1 << 12)`, which wraps around to address `0`.  With AHCI
controllers at functions (0,0,0) and (0,0,1) the first driver constructed is the one at
`0xFFFFFFFFFFFFF000`, not the one at the lowest address `0`. -/
theorem EnumeratePCI_wrap_first_driver_not_lowest :
    foundFunctions wrapSpace wrapConfig = [(0, 0, 0), (0, 0, 1)] ∧
    (EnumeratePCI wrapSpace wrapTable).filter Event.isDriver =
      [Event.newAHCIDriver 0xFFFFFFFFFFFFF000, Event.newAHCIDriver 0] ∧
    (0 : Nat) < 0xFFFFFFFFFFFFF000 :=
  ⟨by decide,
   (filter_EnumeratePCI Event.isDriver (fun _ _ => rfl) (fun _ => rfl) wrapSpace wrapTable).trans
     (by decide),
   by decide⟩

/-! ## Formatted output: serial newlines and the returned count -/

/-- C11 (failing input): with a ready transmitter, `kernel_vprintf("%s", "ok\n")` writes the
bytes `o`, `k`, `0x0A` to the serial data register: the line feed that arrives through the
`%s` argument follows `k`, not a carriage return.  The same holds for `%c` with the
character `0x0A`, whose line feed is the first byte written.  A newline in the format
string itself is written as `0x0D`, `0x0A`. -/
theorem kernel_vprintf_bare_line_feed :
    kernel_vprintf alwaysReady 1 true (some (cstr "%s")) [VArg.str (some (cstr "ok\n"))] =
      some { renderer := [RenderCall.print [0x6F, 0x6B, 0x0A]],
             serial := [0x6F, 0x6B, 0x0A], reads := 3, count := 3 } ∧
    lineFeedsFollowCR none [0x6F, 0x6B, 0x0A] = false ∧
    kernel_vprintf alwaysReady 1 true (some (cstr "%c")) [VArg.int 0x0A] =
      some { renderer := [RenderCall.putChar 0x0A], serial := [0x0A], reads := 1, count := 1 } ∧
    lineFeedsFollowCR none [0x0A] = false ∧
    kernel_vprintf alwaysReady 1 true (some (cstr "ok\n")) [] =
      some { renderer := [RenderCall.putChar 0x6F, RenderCall.putChar 0x6B, RenderCall.next],
             serial := [0x6F, 0x6B, 0x0D, 0x0A], reads := 4, count := 3 } ∧
    lineFeedsFollowCR none [0x6F, 0x6B, 0x0D, 0x0A] = true := by
  decide

/-- C12 (failing input): with a ready transmitter, `kernel_vprintf("%d", -5)` hands the two
characters `-5` to the renderer and returns 3: the minus sign is counted once by the
`buffer[0] == '-' && value < 0` term and once more by the loop over `buffer`.  For `5` it
emits one character and returns 1. -/
theorem kernel_vprintf_counts_minus_twice :
    kernel_vprintf alwaysReady 1 true (some (cstr "%d")) [VArg.int (-5)] =
      some { renderer := [RenderCall.print [0x2D, 0x35]],
             serial := [0x2D, 0x35], reads := 2, count := 3 } ∧
    emittedChars [RenderCall.print [0x2D, 0x35]] = 2 ∧
    cstr "-5" = [0x2D, 0x35] ∧
    kernel_vprintf alwaysReady 1 true (some (cstr "%d")) [VArg.int 5] =
      some { renderer := [RenderCall.print [0x35]], serial := [0x35], reads := 1, count := 1 } := by
  decide

/-! ## Formatted output: what the other paths do -/

theorem serial_putc_eq_some (lsr : LineStatus) (fuel c : Nat) (s s1 : PrintState)
    (h : serial_putc lsr fuel c s = some s1) :
    s1.serial = s.serial ++ [c % 256] ∧ s1.renderer = s.renderer ∧ s1.count = s.count := by
  unfold serial_putc at h
  split at h
  · cases h
  · simp only [Option.some.injEq] at h
    subst h
    exact ⟨rfl, rfl, rfl⟩

theorem pollReady_alwaysReady (fuel reads : Nat) :
    pollReady alwaysReady (fuel + 1) reads = some (reads + 1) := by
  simp [pollReady, alwaysReady]

theorem serialString_eq_some (lsr : LineStatus) (fuel : Nat) (buffer : List Nat)
    (s s1 : PrintState) (h : serialString lsr fuel buffer s = some s1) :
    s1.renderer = s.renderer ∧ s1.count = s.count := by
  induction buffer generalizing s with
  | nil =>
    simp only [serialString, Option.some.injEq] at h
    subst h
    exact ⟨rfl, rfl⟩
  | cons c cs ih =>
    rw [serialString] at h
    split at h
    · cases h
    · rename_i s2 h2
      obtain ⟨-, hr, hc⟩ := serial_putc_eq_some _ _ _ _ _ h2
      obtain ⟨hr', hc'⟩ := ih s2 h
      exact ⟨hr'.trans hr, hc'.trans hc⟩

theorem countedString_eq_some (lsr : LineStatus) (fuel : Nat) (str : List Nat)
    (s s1 : PrintState) (h : countedString lsr fuel str s = some s1) :
    s1.renderer = s.renderer ∧ s1.count = s.count + str.length := by
  induction str generalizing s with
  | nil =>
    simp only [countedString, Option.some.injEq] at h
    subst h
    exact ⟨rfl, by simp⟩
  | cons c cs ih =>
    rw [countedString] at h
    split at h
    · cases h
    · rename_i s2 h2
      obtain ⟨-, hr, hc⟩ := serial_putc_eq_some _ _ _ _ _ h2
      obtain ⟨hr', hc'⟩ := ih s2 h
      refine ⟨hr'.trans hr, ?_⟩
      rw [hc', hc]
      simp only [List.length_cons, Nat.cast_add, Nat.cast_one]
      omega

theorem printBuffer_eq_some (lsr : LineStatus) (fuel : Nat) (buffer : List Nat) (extra : Int)
    (s s1 : PrintState) (h : printBuffer lsr fuel buffer extra s = some s1) :
    s1.renderer = s.renderer ++ [RenderCall.print buffer] ∧
      s1.count = s.count + extra + buffer.length := by
  unfold printBuffer at h
  split at h
  · cases h
  · rename_i s2 h2
    obtain ⟨hr, hc⟩ := serialString_eq_some _ _ _ _ _ h2
    simp only [Option.some.injEq] at h
    subst h
    exact ⟨hr, by simp only [hc]⟩

theorem emittedChars_append (a b : List RenderCall) :
    emittedChars (a ++ b) = emittedChars a + emittedChars b := by
  simp [emittedChars]

theorem lineFeedsFollowCR_append_byte (prev : Option Nat) (l : List Nat) (c : Nat)
    (h : lineFeedsFollowCR prev l = true) (hc : c ≠ 0x0A) :
    lineFeedsFollowCR prev (l ++ [c]) = true := by
  induction l generalizing prev with
  | nil => simp [lineFeedsFollowCR, hc]
  | cons x xs ih =>
    simp only [List.cons_append, lineFeedsFollowCR, Bool.and_eq_true] at h ⊢
    exact ⟨h.1, ih _ h.2⟩

theorem lineFeedsFollowCR_append_crlf (prev : Option Nat) (l : List Nat)
    (h : lineFeedsFollowCR prev l = true) :
    lineFeedsFollowCR prev (l ++ [0x0D, 0x0A]) = true := by
  induction l generalizing prev with
  | nil => simp [lineFeedsFollowCR]
  | cons x xs ih =>
    simp only [List.cons_append, lineFeedsFollowCR, Bool.and_eq_true] at h ⊢
    exact ⟨h.1, ih _ h.2⟩

theorem formatLoop_plain_serial (lsr : LineStatus) (fuel : Nat) (fmt : List Nat)
    (args : List VArg) (s s1 : PrintState)
    (hbyte : ∀ c ∈ fmt, c < 256) (hplain : 0x25 ∉ fmt)
    (hs : lineFeedsFollowCR none s.serial = true)
    (h : formatLoop lsr fuel fmt args s = some s1) :
    lineFeedsFollowCR none s1.serial = true := by
  induction fmt generalizing s with
  | nil =>
    simp only [formatLoop, Option.some.injEq] at h
    subst h
    exact hs
  | cons c rest ih =>
    have hc : c ≠ 0x25 := fun e => hplain (e ▸ List.mem_cons_self _ _)
    have hrest : 0x25 ∉ rest := fun e => hplain (List.mem_cons_of_mem _ e)
    have hbrest : ∀ c ∈ rest, c < 256 := fun x hx => hbyte x (List.mem_cons_of_mem _ hx)
    have hc256 : c < 256 := hbyte c (List.mem_cons_self _ _)
    rw [formatLoop.eq_def] at h
    simp only [if_neg hc] at h
    by_cases hlf : c = 0x0A
    · rw [if_pos hlf] at h
      split at h
      · cases h
      · rename_i s2 h2
        split at h
        · cases h
        · rename_i s3 h3
          obtain ⟨e2, -, -⟩ := serial_putc_eq_some _ _ _ _ _ h2
          obtain ⟨e3, -, -⟩ := serial_putc_eq_some _ _ _ _ _ h3
          refine ih _ hbrest hrest ?_ h
          show lineFeedsFollowCR none s3.serial = true
          rw [e3, e2, List.append_assoc]
          exact lineFeedsFollowCR_append_crlf none _ hs
    · rw [if_neg hlf] at h
      split at h
      · cases h
      · rename_i s2 h2
        obtain ⟨e2, -, -⟩ := serial_putc_eq_some _ _ _ _ _ h2
        refine ih _ hbrest hrest ?_ h
        show lineFeedsFollowCR none s2.serial = true
        rw [e2]
        refine lineFeedsFollowCR_append_byte none _ _ hs ?_
        rw [Nat.mod_eq_of_lt hc256]
        exact hlf

/-- The path C11's failing input misses: for every format string without `%`, whatever the
transmitter does, every line feed `kernel_vprintf` writes to the serial data register comes
right after a carriage return. -/
theorem formatLoop_plain_line_feeds (lsr : LineStatus) (fuel : Nat) (fmt : List Nat)
    (args : List VArg) (s : PrintState) (hbyte : ∀ c ∈ fmt, c < 256) (hplain : 0x25 ∉ fmt)
    (h : kernel_vprintf lsr fuel true (some fmt) args = some s) :
    lineFeedsFollowCR none s.serial = true := by
  unfold kernel_vprintf at h
  simp only [Bool.true_eq_false, if_false] at h
  exact formatLoop_plain_serial lsr fuel fmt args
    { renderer := [], serial := [], reads := 0, count := 0 } s hbyte hplain rfl h

theorem itoa_negative (value : Int) (hneg : value < 0) (hlo : -2 ^ 31 ≤ value) :
    (_itoa value 10 true).head? = some 0x2D := by
  unfold _itoa
  have hnum : ((-value) % 2 ^ 32).toNat ≠ 0 := by
    have h1 : (-value) % 2 ^ 32 = -value := Int.emod_eq_of_lt (by omega) (by omega)
    rw [h1]
    omega
  have hd : decide (value < 0) = true := decide_eq_true hneg
  simp only [hd, Bool.and_self, if_true, hnum, if_false]
  rfl

theorem toInt32_range (v : Int) : -2 ^ 31 ≤ toInt32 v ∧ toInt32 v < 2 ^ 31 := by
  unfold toInt32
  omega

/-- What `%d` returns for every argument: the number of characters of the text `_itoa`
produces, which is what the renderer receives, plus one when the value is negative. -/
theorem kernel_vprintf_signed_count (lsr : LineStatus) (fuel : Nat) (v : Int) (s : PrintState)
    (h : kernel_vprintf lsr fuel true (some [0x25, 0x64]) [VArg.int v] = some s) :
    s.renderer = [RenderCall.print (_itoa (toInt32 v) 10 true)] ∧
    emittedChars s.renderer = (_itoa (toInt32 v) 10 true).length ∧
    s.count = ((_itoa (toInt32 v) 10 true).length : Int) + (if toInt32 v < 0 then 1 else 0) := by
  unfold kernel_vprintf at h
  simp only [Bool.true_eq_false, if_false, formatLoop, if_true, conversion,
    show ((0x64 : Nat) = 0x25) = False from by simp, true_or] at h
  split at h
  · cases h
  · rename_i args1 s1 h1
    split at h1
    · cases h1
    · rename_i s2 h2
      obtain ⟨hr, hc⟩ := printBuffer_eq_some _ _ _ _ _ _ h2
      simp only [Option.some.injEq, Prod.mk.injEq] at h1
      obtain ⟨-, rfl⟩ := h1
      simp only [Option.some.injEq] at h
      subst h
      refine ⟨by simpa using hr, ?_, ?_⟩
      · rw [hr]
        simp [emittedChars, RenderCall.chars]
      · rw [hc]
        by_cases hneg : toInt32 v < 0
        · have hhead := itoa_negative (toInt32 v) hneg (toInt32_range v).1
          simp only [hhead, hneg, and_self, if_true]
          omega
        · simp only [hneg, and_false, if_false]
          omega

/-- By how much `count` runs ahead of the characters handed to the renderer. -/
theorem conversion_count (lsr : LineStatus) (fuel spec : Nat) (args args1 : List VArg)
    (s s1 : PrintState) (h : conversion lsr fuel spec args s = some (args1, s1)) :
    s1.count - emittedChars s1.renderer = s.count - emittedChars s.renderer ∨
    ((spec = 0x64 ∨ spec = 0x69) ∧
      s1.count - emittedChars s1.renderer = s.count - emittedChars s.renderer + 1) := by
  unfold conversion at h
  by_cases h25 : spec = 0x25
  · rw [if_pos h25] at h
    split at h
    · cases h
    · rename_i s2 h2
      obtain ⟨-, hr, hc⟩ := serial_putc_eq_some _ _ _ _ _ h2
      simp only [Option.some.injEq, Prod.mk.injEq] at h
      obtain ⟨-, rfl⟩ := h
      left
      simp only [hr, hc, emittedChars_append]
      simp only [emittedChars, RenderCall.chars, List.map_cons, List.map_nil, List.sum_cons,
        List.sum_nil, Nat.add_zero, Nat.cast_add, Nat.cast_one]
      omega
  rw [if_neg h25] at h
  by_cases hd : spec = 0x64 ∨ spec = 0x69
  · rw [if_pos hd] at h
    split at h
    · rename_i v rest
      dsimp only at h
      split at h
      · cases h
      · rename_i s2 h2
        obtain ⟨hr, hc⟩ := printBuffer_eq_some _ _ _ _ _ _ h2
        simp only [Option.some.injEq, Prod.mk.injEq] at h
        obtain ⟨-, rfl⟩ := h
        rw [hr, hc, emittedChars_append]
        simp only [emittedChars, RenderCall.chars, List.map_cons, List.map_nil, List.sum_cons,
          List.sum_nil, Nat.add_zero, Nat.cast_add]
        split
        · right
          exact ⟨hd, by omega⟩
        · left
          omega
    · cases h
  rw [if_neg hd] at h
  left
  by_cases h75 : spec = 0x75
  · rw [if_pos h75] at h
    split at h
    · split at h
      · cases h
      · rename_i s2 h2
        obtain ⟨hr, hc⟩ := printBuffer_eq_some _ _ _ _ _ _ h2
        simp only [Option.some.injEq, Prod.mk.injEq] at h
        obtain ⟨-, rfl⟩ := h
        rw [hr, hc, emittedChars_append]
        simp only [emittedChars, RenderCall.chars, List.map_cons, List.map_nil, List.sum_cons,
          List.sum_nil, Nat.add_zero, Nat.cast_add]
        omega
    · cases h
  rw [if_neg h75] at h
  by_cases h78 : spec = 0x78
  · rw [if_pos h78] at h
    split at h
    · split at h
      · cases h
      · rename_i s2 h2
        obtain ⟨hr, hc⟩ := printBuffer_eq_some _ _ _ _ _ _ h2
        simp only [Option.some.injEq, Prod.mk.injEq] at h
        obtain ⟨-, rfl⟩ := h
        rw [hr, hc, emittedChars_append]
        simp only [emittedChars, RenderCall.chars, List.map_cons, List.map_nil, List.sum_cons,
          List.sum_nil, Nat.add_zero, Nat.cast_add]
        omega
    · cases h
  rw [if_neg h78] at h
  by_cases h58 : spec = 0x58
  · rw [if_pos h58] at h
    split at h
    · split at h
      · cases h
      · rename_i s2 h2
        obtain ⟨hr, hc⟩ := printBuffer_eq_some _ _ _ _ _ _ h2
        simp only [Option.some.injEq, Prod.mk.injEq] at h
        obtain ⟨-, rfl⟩ := h
        rw [hr, hc, emittedChars_append]
        simp only [emittedChars, RenderCall.chars, List.map_cons, List.map_nil, List.sum_cons,
          List.sum_nil, Nat.add_zero, Nat.cast_add]
        omega
    · cases h
  rw [if_neg h58] at h
  by_cases h6F : spec = 0x6F
  · rw [if_pos h6F] at h
    split at h
    · split at h
      · cases h
      · rename_i s2 h2
        obtain ⟨hr, hc⟩ := printBuffer_eq_some _ _ _ _ _ _ h2
        simp only [Option.some.injEq, Prod.mk.injEq] at h
        obtain ⟨-, rfl⟩ := h
        rw [hr, hc, emittedChars_append]
        simp only [emittedChars, RenderCall.chars, List.map_cons, List.map_nil, List.sum_cons,
          List.sum_nil, Nat.add_zero, Nat.cast_add]
        omega
    · cases h
  rw [if_neg h6F] at h
  by_cases h73 : spec = 0x73
  · rw [if_pos h73] at h
    split at h
    · simp only [Option.some.injEq, Prod.mk.injEq] at h
      obtain ⟨-, rfl⟩ := h
      rfl
    · split at h
      · cases h
      · rename_i s2 h2
        obtain ⟨hr, hc⟩ := countedString_eq_some _ _ _ _ _ h2
        simp only [Option.some.injEq, Prod.mk.injEq] at h
        obtain ⟨-, rfl⟩ := h
        rw [hr, hc, emittedChars_append]
        simp only [emittedChars, RenderCall.chars, List.map_cons, List.map_nil, List.sum_cons,
          List.sum_nil, Nat.add_zero, Nat.cast_add]
        omega
    · cases h
  rw [if_neg h73] at h
  by_cases h63 : spec = 0x63
  · rw [if_pos h63] at h
    split at h
    · dsimp only at h
      split at h
      · cases h
      · rename_i s2 h2
        obtain ⟨-, hr, hc⟩ := serial_putc_eq_some _ _ _ _ _ h2
        simp only [Option.some.injEq, Prod.mk.injEq] at h
        obtain ⟨-, rfl⟩ := h
        simp only [hr, hc, emittedChars_append]
        simp only [emittedChars, RenderCall.chars, List.map_cons, List.map_nil, List.sum_cons,
          List.sum_nil, Nat.add_zero, Nat.cast_add, Nat.cast_one]
        omega
    · cases h
  rw [if_neg h63] at h
  by_cases h70 : spec = 0x70
  · rw [if_pos h70] at h
    split at h
    · split at h
      · cases h
      · rename_i s2 h2
        split at h
        · cases h
        · rename_i s3 h3
          dsimp only at h
          split at h
          · cases h
          · rename_i s4 h4
            obtain ⟨-, hr2, hc2⟩ := serial_putc_eq_some _ _ _ _ _ h2
            obtain ⟨-, hr3, hc3⟩ := serial_putc_eq_some _ _ _ _ _ h3
            obtain ⟨hr4, hc4⟩ := countedString_eq_some _ _ _ _ _ h4
            simp only [Option.some.injEq, Prod.mk.injEq] at h
            obtain ⟨-, rfl⟩ := h
            rw [hr4, hc4]
            simp only [hr3, hc3, hr2, hc2, emittedChars_append]
            simp only [emittedChars, RenderCall.chars, List.map_cons, List.map_nil,
              List.sum_cons, List.sum_nil, Nat.add_zero, Nat.cast_add, List.length_cons,
              List.length_nil, Nat.zero_add]
            norm_num
    · cases h
  rw [if_neg h70] at h
  split at h
  · cases h
  · rename_i s2 h2
    split at h
    · cases h
    · rename_i s3 h3
      obtain ⟨-, hr2, hc2⟩ := serial_putc_eq_some _ _ _ _ _ h2
      obtain ⟨-, hr3, hc3⟩ := serial_putc_eq_some _ _ _ _ _ h3
      simp only [Option.some.injEq, Prod.mk.injEq] at h
      obtain ⟨-, rfl⟩ := h
      simp only [hr3, hc3, hr2, hc2, emittedChars_append]
      simp only [emittedChars, RenderCall.chars, List.map_cons, List.map_nil, List.sum_cons,
        List.sum_nil, Nat.add_zero, Nat.cast_add, Nat.cast_one]
      omega

theorem formatLoop_count (lsr : LineStatus) (fuel : Nat) (n : Nat) :
    ∀ (fmt : List Nat) (args : List VArg) (s s1 : PrintState), fmt.length ≤ n →
      formatLoop lsr fuel fmt args s = some s1 →
      s.count - emittedChars s.renderer ≤ s1.count - emittedChars s1.renderer ∧
      (0x64 ∉ fmt → 0x69 ∉ fmt →
        s1.count - emittedChars s1.renderer = s.count - emittedChars s.renderer) := by
  induction n with
  | zero =>
    intro fmt args s s1 hlen h
    have hnil : fmt = [] := List.length_eq_zero.mp (by omega)
    subst hnil
    simp only [formatLoop, Option.some.injEq] at h
    subst h
    exact ⟨le_refl _, fun _ _ => rfl⟩
  | succ n ih =>
    intro fmt args s s1 hlen h
    cases fmt with
    | nil =>
      simp only [formatLoop, Option.some.injEq] at h
      subst h
      exact ⟨le_refl _, fun _ _ => rfl⟩
    | cons c rest =>
      rw [formatLoop.eq_def] at h
      simp only at h
      simp only [List.length_cons] at hlen
      by_cases hc : c = 0x25
      · rw [if_pos hc] at h
        cases rest with
        | nil => cases h
        | cons spec rest' =>
          simp only at h
          simp only [List.length_cons] at hlen
          split at h
          · cases h
          · rename_i args2 s2 h2
            obtain ⟨hle, heq⟩ := ih rest' args2 s2 s1 (by omega) h
            rcases conversion_count _ _ _ _ _ _ _ h2 with hconv | ⟨hspec, hconv⟩
            · refine ⟨by omega, fun hd hi => ?_⟩
              rw [heq (fun e => hd (by simp [e])) (fun e => hi (by simp [e]))]
              exact hconv
            · refine ⟨by omega, fun hd hi => ?_⟩
              rcases hspec with rfl | rfl
              · exact absurd (by simp) hd
              · exact absurd (by simp) hi
      · rw [if_neg hc] at h
        by_cases hlf : c = 0x0A
        · rw [if_pos hlf] at h
          split at h
          · cases h
          · rename_i s2 h2
            split at h
            · cases h
            · rename_i s3 h3
              obtain ⟨-, hr2, hc2⟩ := serial_putc_eq_some _ _ _ _ _ h2
              obtain ⟨-, hr3, hc3⟩ := serial_putc_eq_some _ _ _ _ _ h3
              obtain ⟨hle, heq⟩ := ih rest args _ s1 (by omega) h
              simp only [hr3, hc3, hr2, hc2, emittedChars_append,
                show emittedChars [RenderCall.next] = 1 from rfl, Nat.cast_add,
                Nat.cast_one] at hle heq
              refine ⟨by omega, fun hd hi => ?_⟩
              have := heq (fun e => hd (List.mem_cons_of_mem _ e))
                (fun e => hi (List.mem_cons_of_mem _ e))
              omega
        · rw [if_neg hlf] at h
          split at h
          · cases h
          · rename_i s2 h2
            obtain ⟨-, hr2, hc2⟩ := serial_putc_eq_some _ _ _ _ _ h2
            obtain ⟨hle, heq⟩ := ih rest args _ s1 (by omega) h
            simp only [hr2, hc2, emittedChars_append,
              show emittedChars [RenderCall.putChar c] = 1 from rfl, Nat.cast_add,
              Nat.cast_one] at hle heq
            refine ⟨by omega, fun hd hi => ?_⟩
            have := heq (fun e => hd (List.mem_cons_of_mem _ e))
              (fun e => hi (List.mem_cons_of_mem _ e))
            omega

/-- The paths C12's failing input misses: whenever `kernel_vprintf` returns, the value
returned is at least the number of characters handed to the renderer, and it equals that
number for every format string that contains neither `d` nor `i`, whatever the
arguments. -/
theorem kernel_vprintf_count_emitted (lsr : LineStatus) (fuel : Nat) (fmt : List Nat)
    (args : List VArg) (s : PrintState)
    (h : kernel_vprintf lsr fuel true (some fmt) args = some s) :
    (emittedChars s.renderer : Int) ≤ s.count ∧
    (0x64 ∉ fmt → 0x69 ∉ fmt → s.count = emittedChars s.renderer) := by
  unfold kernel_vprintf at h
  simp only [Bool.true_eq_false, if_false] at h
  obtain ⟨hle, heq⟩ := formatLoop_count lsr fuel fmt.length fmt args
    { renderer := [], serial := [], reads := 0, count := 0 } s (le_refl _) h
  simp only [show emittedChars [] = 0 from rfl, Nat.cast_zero, sub_zero] at hle heq
  refine ⟨by omega, fun hd hi => ?_⟩
  have := heq hd hi
  omega

end PonchoOS
